import Mathlib

/-!
Verification of the OnshapeToDb synchronization engine.

This file shallowly embeds the two core modules of the repository —
`app/services/onshape_client.py` (request signing and request dispatch) and
`app/services/sync_service.py` (per-entity reconciliation, job tracking and
the full-sync cascade) — as executable Lean definitions, and proves the
specification's claims about them.

Conventions of the embedding:
* Python strings are `String`, bytes are `List Nat` (each element < 256).
* 32-bit machine words are `Nat` reduced modulo 2^32 wherever overflow
  matters.
* Python `dict.get(k)` on optional JSON fields is an `Option` field;
  `dict.get(k, d)` is `Option.getD`.
* Python truthiness tests on strings/lists (`if not document_id`,
  `if document_ids`) are modelled explicitly: `none` and `""` (resp. `[]`)
  are falsy.
* Fallible remote calls are `Except String α`; a raised exception is the
  `.error` case carrying `str(e)`.
-/

namespace OnshapeToDb

set_option maxRecDepth 10000

/-! ## 32-bit word arithmetic (Python ints truncated as SHA-256 requires) -/

/-- Truncate to a 32-bit word. -/
def w32 (x : Nat) : Nat := x % 4294967296

/-- Right rotation of a 32-bit word. -/
def rotr (n x : Nat) : Nat := w32 ((x >>> n) ||| (x <<< (32 - n)))

/-- Logical right shift. -/
def shr (n x : Nat) : Nat := x >>> n

/-- Bitwise complement within 32 bits (argument is a 32-bit word). -/
def bnot32 (x : Nat) : Nat := 4294967295 - x

/-! ## SHA-256 (the `hashlib.sha256` the client delegates to) -/

/-- SHA-256 round constants. -/
def shaK : Array Nat := #[
  1116352408, 1899447441, 3049323471, 3921009573, 961987163,
  1508970993, 2453635748, 2870763221, 3624381080, 310598401,
  607225278, 1426881987, 1925078388, 2162078206, 2614888103,
  3248222580, 3835390401, 4022224774, 264347078, 604807628,
  770255983, 1249150122, 1555081692, 1996064986, 2554220882,
  2821834349, 2952996808, 3210313671, 3336571891, 3584528711,
  113926993, 338241895, 666307205, 773529912, 1294757372,
  1396182291, 1695183700, 1986661051, 2177026350, 2456956037,
  2730485921, 2820302411, 3259730800, 3345764771, 3516065817,
  3600352804, 4094571909, 275423344, 430227734, 506948616,
  659060556, 883997877, 958139571, 1322822218, 1537002063,
  1747873779, 1955562222, 2024104815, 2227730452, 2361852424,
  2428436474, 2756734187, 3204031479, 3329325298]

/-- SHA-256 initial hash state. -/
def shaH0 : Array Nat := #[
  1779033703, 3144134277, 1013904242, 2773480762, 1359893119,
  2600822924, 528734635, 1541459225]

def shaCh (x y z : Nat) : Nat := (x &&& y) ^^^ (bnot32 x &&& z)

def shaMaj (x y z : Nat) : Nat := (x &&& y) ^^^ (x &&& z) ^^^ (y &&& z)

def bigSigma0 (x : Nat) : Nat := rotr 2 x ^^^ rotr 13 x ^^^ rotr 22 x

def bigSigma1 (x : Nat) : Nat := rotr 6 x ^^^ rotr 11 x ^^^ rotr 25 x

def smallSigma0 (x : Nat) : Nat := rotr 7 x ^^^ rotr 18 x ^^^ shr 3 x

def smallSigma1 (x : Nat) : Nat := rotr 17 x ^^^ rotr 19 x ^^^ shr 10 x

/-- SHA-256 padding: append `0x80`, zero bytes, then the 64-bit big-endian
bit length, reaching a multiple of 64 bytes. -/
def shaPad (msg : List Nat) : List Nat :=
  let L := msg.length
  let zeros := (64 - ((L + 9) % 64)) % 64
  let bitLen := L * 8
  msg ++ [0x80] ++ List.replicate zeros 0 ++
    [w32 (bitLen >>> 56) % 256, (bitLen >>> 48) % 256, (bitLen >>> 40) % 256,
     (bitLen >>> 32) % 256, (bitLen >>> 24) % 256, (bitLen >>> 16) % 256,
     (bitLen >>> 8) % 256, bitLen % 256]

/-- Group a padded byte list into 32-bit big-endian words. -/
def bytesToWords : List Nat → List Nat
  | a :: b :: c :: d :: rest => (a <<< 24 ||| b <<< 16 ||| c <<< 8 ||| d) :: bytesToWords rest
  | _ => []

/-- Split a word list into 16-word blocks (padded input is always a
multiple of 16 words, so the catch-all only sees the empty list). -/
def toBlocks : List Nat → List (List Nat)
  | w0 :: w1 :: w2 :: w3 :: w4 :: w5 :: w6 :: w7 ::
    w8 :: w9 :: w10 :: w11 :: w12 :: w13 :: w14 :: w15 :: rest =>
      [w0, w1, w2, w3, w4, w5, w6, w7, w8, w9, w10, w11, w12, w13, w14, w15] ::
      toBlocks rest
  | _ => []

/-- Extend a 16-word block to the 64-word message schedule. -/
def extendSchedule : Array Nat → Nat → Array Nat
  | w, 0 => w
  | w, k + 1 =>
    let n := w.size
    let x := w32 (smallSigma1 (w.getD (n - 2) 0) + w.getD (n - 7) 0 +
                  smallSigma0 (w.getD (n - 15) 0) + w.getD (n - 16) 0)
    extendSchedule (w.push x) k

/-- One round of the SHA-256 compression function on the 8-register state. -/
def shaRound (wt kt : Nat) : Array Nat → Array Nat := fun st =>
  let a := st.getD 0 0
  let b := st.getD 1 0
  let c := st.getD 2 0
  let d := st.getD 3 0
  let e := st.getD 4 0
  let f := st.getD 5 0
  let g := st.getD 6 0
  let h := st.getD 7 0
  let t1 := w32 (h + bigSigma1 e + shaCh e f g + kt + wt)
  let t2 := w32 (bigSigma0 a + shaMaj a b c)
  #[w32 (t1 + t2), a, b, c, w32 (d + t1), e, f, g]

/-- Compress one 16-word block into the running hash state. -/
def shaCompress (h : Array Nat) (block : List Nat) : Array Nat :=
  let w := extendSchedule (Array.mk block) 48
  let st := (List.range 64).foldl
    (fun st t => shaRound (w.getD t 0) (shaK.getD t 0) st) h
  #[w32 (h.getD 0 0 + st.getD 0 0), w32 (h.getD 1 0 + st.getD 1 0),
    w32 (h.getD 2 0 + st.getD 2 0), w32 (h.getD 3 0 + st.getD 3 0),
    w32 (h.getD 4 0 + st.getD 4 0), w32 (h.getD 5 0 + st.getD 5 0),
    w32 (h.getD 6 0 + st.getD 6 0), w32 (h.getD 7 0 + st.getD 7 0)]

/-- A 32-bit word as four big-endian bytes. -/
def wordBytes (x : Nat) : List Nat :=
  [(x >>> 24) % 256, (x >>> 16) % 256, (x >>> 8) % 256, x % 256]

/-- SHA-256 of a byte list. -/
def sha256 (msg : List Nat) : List Nat :=
  let blocks := toBlocks (bytesToWords (shaPad msg))
  let h := blocks.foldl shaCompress shaH0
  (h.toList.map wordBytes).foldr (· ++ ·) []

/-! ## HMAC (the `hmac.new(key, msg, hashlib.sha256)` construction) -/

/-- HMAC-SHA-256 keyed by `key` over `msg`, both byte lists. -/
def hmacSha256 (key msg : List Nat) : List Nat :=
  let k0 := if key.length > 64 then sha256 key else key
  let kb := k0 ++ List.replicate (64 - k0.length) 0
  let ipad := kb.map (fun b => b ^^^ 0x36)
  let opad := kb.map (fun b => b ^^^ 0x5c)
  sha256 (opad ++ sha256 (ipad ++ msg))

/-! ## Base64 (the `base64.b64encode` the client uses on the digest) -/

def b64chars : List Char :=
  "ABCDEFGHIJKLMNOPQRSTUVWXYZabcdefghijklmnopqrstuvwxyz0123456789+/".data

def b64char (n : Nat) : Char := b64chars.getD n 'A'

def base64Chars : List Nat → List Char
  | [] => []
  | [a] => [b64char (a >>> 2), b64char ((a &&& 3) <<< 4), '=', '=']
  | [a, b] => [b64char (a >>> 2), b64char (((a &&& 3) <<< 4) ||| (b >>> 4)),
               b64char ((b &&& 15) <<< 2), '=']
  | a :: b :: c :: rest =>
      b64char (a >>> 2) :: b64char (((a &&& 3) <<< 4) ||| (b >>> 4)) ::
      b64char (((b &&& 15) <<< 2) ||| (c >>> 6)) :: b64char (c &&& 63) ::
      base64Chars rest

/-- `base64.b64encode(bs).decode('utf-8')`. -/
def b64encode (bs : List Nat) : String := String.mk (base64Chars bs)

/-! ## UTF-8 (Python `str.encode('utf-8')`) -/

def utf8Char (c : Char) : List Nat :=
  let n := c.toNat
  if n < 0x80 then [n]
  else if n < 0x800 then [0xC0 ||| (n >>> 6), 0x80 ||| (n &&& 0x3F)]
  else if n < 0x10000 then
    [0xE0 ||| (n >>> 12), 0x80 ||| ((n >>> 6) &&& 0x3F), 0x80 ||| (n &&& 0x3F)]
  else
    [0xF0 ||| (n >>> 18), 0x80 ||| ((n >>> 12) &&& 0x3F),
     0x80 ||| ((n >>> 6) &&& 0x3F), 0x80 ||| (n &&& 0x3F)]

/-- UTF-8 encoding of a string as a byte list. -/
def utf8 (s : String) : List Nat :=
  s.data.foldr (fun c acc => utf8Char c ++ acc) []

/-! ## URL parsing (the slice of `urllib.parse.urlparse` the client uses)

`_create_signature` needs only `parsed_url.path` and `parsed_url.query`.
For the `scheme://netloc/path?query#fragment` URLs the client builds, the
path is what follows the authority up to `?` or `#`, and the query sits
between `?` and `#`. -/

/-- Drop `scheme://` when present; `none` when the URL has no `://`. -/
def afterAuthorityMark : List Char → Option (List Char)
  | ':' :: '/' :: '/' :: rest => some rest
  | _ :: rest => afterAuthorityMark rest
  | [] => none

/-- The characters from the start of the path component onward. -/
def pathOnward (url : String) : List Char :=
  match afterAuthorityMark url.data with
  | some rest => rest.dropWhile (fun c => c ≠ '/' ∧ c ≠ '?' ∧ c ≠ '#')
  | none => url.data

/-- `urlparse(url).path`. -/
def urlPath (url : String) : String :=
  String.mk ((pathOnward url).takeWhile (fun c => c ≠ '?' ∧ c ≠ '#'))

/-- `urlparse(url).query`. -/
def urlQuery (url : String) : String :=
  match (pathOnward url).dropWhile (fun c => c ≠ '?' ∧ c ≠ '#') with
  | '?' :: rest => String.mk (rest.takeWhile (fun c => c ≠ '#'))
  | _ => ""

/-! ## The Signer (`OnshapeClient._create_signature`) -/

/-- ASCII lowercasing of one character, as Python `str.lower` acts on the
ASCII range (every string the client signs is ASCII). -/
def lowerChar (c : Char) : Char :=
  if 65 ≤ c.toNat ∧ c.toNat ≤ 90 then Char.ofNat (c.toNat + 32) else c

/-- Python `str.lower()`. -/
def pyLower (s : String) : String := String.mk (s.data.map lowerChar)

/-- The configuration the client reads from `settings` at construction. -/
structure ClientConfig where
  base_url : String
  access_key : String
  secret_key : String

/-- The string the client signs: six newline-terminated pieces (note the
final newline after the query), lower-cased as a whole, exactly as the
f-string in `_create_signature` builds it. -/
def string_to_sign (method nonce auth_date content_type url_path url_query :
    String) : String :=
  pyLower (method ++ "\n" ++ nonce ++ "\n" ++ auth_date ++ "\n" ++ content_type ++
   "\n" ++ url_path ++ "\n" ++ url_query ++ "\n")

/-- `OnshapeClient._create_signature`: HMAC-SHA-256 the canonical string
with the secret key, base64 the digest, and format the header value. -/
def create_signature (cfg : ClientConfig) (method url nonce auth_date
    content_type : String) : String :=
  let url_path := urlPath url
  let url_query := urlQuery url
  let s := string_to_sign method nonce auth_date content_type url_path url_query
  let signature := hmacSha256 (utf8 cfg.secret_key) (utf8 s)
  "On " ++ cfg.access_key ++ ":HmacSHA256:" ++ b64encode signature

/-- The `Authorization` header `_make_request` attaches: it signs the
nonce-and-date-stamped request against `{base_url}/v6/{endpoint}`, with
content type `application/json` exactly when the request carries a body. -/
def make_request_authorization (cfg : ClientConfig) (method endpoint : String)
    (hasBody : Bool) (nonce auth_date : String) : String :=
  let url := cfg.base_url ++ "/" ++ "v6" ++ "/" ++ endpoint
  let content_type := if hasBody then "application/json" else ""
  create_signature cfg method url nonce auth_date content_type

/-- The header value claim C1 predicts: digest over the *newline-separated*
(no trailing newline) lower-cased concatenation of the six components. -/
def claimed_authorization (cfg : ClientConfig) (method endpoint : String)
    (hasBody : Bool) (nonce auth_date : String) : String :=
  let url := cfg.base_url ++ "/" ++ "v6" ++ "/" ++ endpoint
  let content_type := if hasBody then "application/json" else ""
  let canonical := pyLower (String.intercalate "\n"
    [method, nonce, auth_date, content_type, urlPath url, urlQuery url])
  "On " ++ cfg.access_key ++ ":HmacSHA256:" ++
    b64encode (hmacSha256 (utf8 cfg.secret_key) (utf8 canonical))

/-- The header value after amending C1: the canonical string is newline-
*terminated* — every component, the query included, is followed by one
newline before lower-casing. -/
def amended_authorization (cfg : ClientConfig) (method endpoint : String)
    (hasBody : Bool) (nonce auth_date : String) : String :=
  let url := cfg.base_url ++ "/" ++ "v6" ++ "/" ++ endpoint
  let content_type := if hasBody then "application/json" else ""
  let canonical := pyLower (String.intercalate "\n"
    [method, nonce, auth_date, content_type, urlPath url, urlQuery url]
    ++ "\n")
  "On " ++ cfg.access_key ++ ":HmacSHA256:" ++
    b64encode (hmacSha256 (utf8 cfg.secret_key) (utf8 canonical))

/-- A concrete client configuration used to evaluate the signer. -/
def cfgC1 : ClientConfig :=
  { base_url := "https://cad.onshape.com/api", access_key := "testAccessKey",
    secret_key := "testSecretKey" }

/-! ## Request dispatch and its error surface (`OnshapeClient._make_request`)

`_make_request` wraps the whole `requests` interaction in one
`except requests.exceptions.RequestException` clause that re-raises a plain
`Exception` whose message embeds `str(e)`. Network errors, `raise_for_status`
HTTP errors and (on current `requests`) JSON decode errors are all
`RequestException`s, so they all take this path. -/

deriving instance DecidableEq for Except

/-- The one error shape `_make_request` lets escape for a failing call:
Python `Exception(message)`. -/
inductive PyErr where
  | exc (msg : String)
deriving DecidableEq, Repr

/-- What the transport did for one dispatched request: the connection
failed outright (carrying `str(e)` of the `RequestException`), or a
response arrived with a status, a reason phrase, a body whose JSON parse
either succeeds with a payload or fails with a decode-error message, and a
flag for whether the body is non-empty. -/
inductive ReqOutcome where
  | network (msg : String)
  | resp (status : Nat) (reason : String) (body : Except String String)
      (hasContent : Bool)
deriving DecidableEq, Repr

/-- `Response.raise_for_status`: the `HTTPError` message for a 4xx/5xx
status, `none` otherwise, with the message format `requests` uses. -/
def raise_for_status (status : Nat) (reason url : String) : Option String :=
  if 400 ≤ status ∧ status < 500 then
    some (toString status ++ " Client Error: " ++ reason ++ " for url: " ++ url)
  else if 500 ≤ status ∧ status < 600 then
    some (toString status ++ " Server Error: " ++ reason ++ " for url: " ++ url)
  else none

/-- `OnshapeClient._make_request` after dispatch: propagate the parsed
payload on success, otherwise wrap whatever `RequestException` occurred —
network failure, HTTP error or JSON decode error alike — in one generic
`Exception` whose message is `"Onshape API request failed: " ++ str(e)`.
An empty body parses to the empty dict. -/
def make_request (url : String) (outcome : ReqOutcome) : Except PyErr String :=
  match outcome with
  | .network m => .error (.exc ("Onshape API request failed: " ++ m))
  | .resp status reason body hasContent =>
    match raise_for_status status reason url with
    | some m => .error (.exc ("Onshape API request failed: " ++ m))
    | none =>
      if hasContent then
        match body with
        | .ok payload => .ok payload
        | .error m => .error (.exc ("Onshape API request failed: " ++ m))
      else .ok "\x7b\x7d"

/-- The URL of a concrete documents request. -/
def urlC9 : String := "https://cad.onshape.com/api/v6/documents"

/-! ## The mirrored data model (`app/models/onshape_models.py`)

One structure per SQLAlchemy model, carrying the columns the sync service
reads or writes. `created_at` is the server-default insertion timestamp;
`updated_at` starts `NULL` and is written by the update branches. Time is a
logical clock ticking once per `datetime.utcnow()` / server-default call. -/

structure DocumentRec where
  document_id : String
  name : String
  description : Option String
  owner_id : Option String
  owner_name : Option String
  public : Bool
  created_at : Nat
  updated_at : Option Nat
deriving DecidableEq, Repr

structure WorkspaceRec where
  workspace_id : String
  document_id : String
  name : String
  description : Option String
  is_main : Bool
  created_at : Nat
  updated_at : Option Nat
deriving DecidableEq, Repr

structure ElementRec where
  element_id : String
  document_id : String
  name : String
  element_type : Option String
  data_type : Option String
  thumbnail_id : Option String
  created_at : Nat
  updated_at : Option Nat
deriving DecidableEq, Repr

/-- Opaque JSON columns (material/mass/appearance/parameters blobs) are
carried as uninterpreted strings. -/
structure PartRec where
  part_id : String
  element_id : String
  name : String
  state : Option String
  body_type : Option String
  material_properties : Option String
  mass_properties : Option String
  appearance : Option String
  created_at : Nat
  updated_at : Option Nat
deriving DecidableEq, Repr

structure FeatureRec where
  feature_id : String
  element_id : String
  name : String
  feature_type : Option String
  suppressed : Bool
  parameters : Option String
  created_at : Nat
  updated_at : Option Nat
deriving DecidableEq, Repr

/-- The `sync_logs` job-tracker table row. -/
structure SyncLogRec where
  sync_type : String
  status : String
  message : Option String
  records_processed : Nat
  errors_count : Nat
  started_at : Nat
  completed_at : Option Nat
deriving DecidableEq, Repr

/-! ## Remote payloads as the sync service reads them

Each remote record is the set of dict keys the service extracts, every one
optional (absent keys read as `None`). `owner` is `none` whenever
`detailed_doc.get('owner', \x7b\x7d)` produced a falsy value (absent key,
null, or empty dict) — all three make the code leave owner id/name `None`. -/

structure RemoteDoc where
  id : Option String
deriving DecidableEq, Repr

structure OwnerInfo where
  id : Option String
  name : Option String
deriving DecidableEq, Repr

structure RemoteDocDetail where
  name : Option String
  description : Option String
  owner : Option OwnerInfo
  public : Option Bool
deriving DecidableEq, Repr

structure RemoteWorkspace where
  id : Option String
  name : Option String
  description : Option String
  isMain : Option Bool
deriving DecidableEq, Repr

structure RemoteElement where
  id : Option String
  name : Option String
  elementType : Option String
  dataType : Option String
  thumbnailId : Option String
deriving DecidableEq, Repr

structure RemotePart where
  partId : Option String
  name : Option String
  state : Option String
  bodyType : Option String
  materialProperties : Option String
  appearance : Option String
deriving DecidableEq, Repr

structure RemoteFeature where
  featureId : Option String
  name : Option String
  featureType : Option String
  suppressed : Option Bool
  parameters : Option String
deriving DecidableEq, Repr

/-- `get_documents` returns a dict read as `response.get('items', [])`. -/
structure DocumentsResponse where
  items : Option (List RemoteDoc)
deriving DecidableEq, Repr

/-- `get_features` returns a dict read as `response.get('features', [])`. -/
structure FeaturesResponse where
  features : Option (List RemoteFeature)
deriving DecidableEq, Repr

/-- The remote API as the sync service sees it: one `Except` per client
call, `.error` carrying `str(e)` of the raised exception. -/
structure Env where
  get_documents : Except String DocumentsResponse
  get_document : String → Except String RemoteDocDetail
  get_document_workspaces : String → Except String (List RemoteWorkspace)
  get_document_elements : String → String → Except String (List RemoteElement)
  get_parts : String → String → String → Except String (List RemotePart)
  get_features : String → String → String → Except String FeaturesResponse
  get_part_mass_properties :
    String → String → String → String → Except String String

/-- The local database plus the logical clock. Lists hold rows in insertion
order; `Query.first()` is `List.find?` and `session.add` appends. -/
structure Db where
  documents : List DocumentRec
  workspaces : List WorkspaceRec
  elements : List ElementRec
  parts : List PartRec
  features : List FeatureRec
  sync_logs : List SyncLogRec
  clock : Nat
deriving Repr

/-- The empty database at clock zero. -/
def emptyDb : Db := ⟨[], [], [], [], [], [], 0⟩

/-- What a sync method hands back: the success dict carries `processed`,
`errors` and a message; the error dict only a message. -/
inductive SyncResult where
  | ok (processed errors : Nat) (message : String)
  | err (message : String)
deriving DecidableEq, Repr

/-- `result.get('processed', 0)` as `full_sync` reads it. -/
def SyncResult.processedCount : SyncResult → Nat
  | .ok p _ _ => p
  | .err _ => 0

/-- `result.get('errors', 0)` as `full_sync` reads it. -/
def SyncResult.errorsCount : SyncResult → Nat
  | .ok _ e _ => e
  | .err _ => 0

/-- Python truthiness of an optional external key: `None` and the empty
string are both falsy (`if not document_id: continue`). -/
def keyOf : Option String → Option String
  | none => none
  | some s => if s = "" then none else some s

/-- Replace the first list element satisfying `p` (SQLAlchemy mutates the
row `Query.first()` returned, leaving its position unchanged). -/
def updateFirst (p : α → Bool) (f : α → α) : List α → List α
  | [] => []
  | x :: xs => if p x then f x :: xs else x :: updateFirst p f xs

/-- Update the list element at an index (the handle a sync method holds on
the `SyncLog` row it created). -/
def modifyAt (f : α → α) : Nat → List α → List α
  | _, [] => []
  | 0, x :: xs => f x :: xs
  | n + 1, x :: xs => x :: modifyAt f n xs

/-! ## Job tracking (`SyncService._create_sync_log` / `_update_sync_log`) -/

/-- Open a job record with status `in_progress` and a start timestamp;
returns the new row's index as the handle. -/
def create_sync_log (db : Db) (sync_type : String) (message : Option String) :
    Db × Nat :=
  let log : SyncLogRec :=
    { sync_type := sync_type, status := "in_progress", message := message,
      records_processed := 0, errors_count := 0, started_at := db.clock,
      completed_at := none }
  ({ db with sync_logs := db.sync_logs ++ [log], clock := db.clock + 1 },
   db.sync_logs.length)

/-- Close a job record: set status and counts, stamp `completed_at`, and
overwrite the message unless the new one is falsy (`if message:`). -/
def update_sync_log (db : Db) (handle : Nat) (status : String)
    (records_processed errors_count : Nat) (message : String) : Db :=
  { db with
    sync_logs := modifyAt (fun log =>
      { log with
          status := status
          records_processed := records_processed
          errors_count := errors_count
          completed_at := some db.clock
          message := if message = "" then log.message else some message })
      handle db.sync_logs,
    clock := db.clock + 1 }

/-! ## Document sync (`SyncService.sync_documents`) -/

/-- The body of the per-document loop: skip key-less records, skip existing
documents unless `force_refresh`, fetch the detailed document (a failure
here is caught and counted), then update in place or insert. -/
def docStep (env : Env) (force_refresh : Bool) :
    Db × Nat × Nat → RemoteDoc → Db × Nat × Nat := fun (db, processed, errors) doc_data =>
  match keyOf doc_data.id with
  | none => (db, processed, errors)
  | some document_id =>
    let existing := db.documents.find? (fun d => d.document_id == document_id)
    if existing.isSome && !force_refresh then (db, processed, errors)
    else
      match env.get_document document_id with
      | .error _ => (db, processed, errors + 1)
      | .ok detail =>
        let owner_id := detail.owner.bind (fun o => o.id)
        let owner_name := detail.owner.bind (fun o => o.name)
        let db' :=
          if existing.isSome then
            { db with
              documents := updateFirst (fun d => d.document_id == document_id)
                (fun d => { d with
                  name := detail.name.getD ""
                  description := detail.description
                  owner_id := owner_id
                  owner_name := owner_name
                  public := detail.public.getD false
                  updated_at := some db.clock }) db.documents,
              clock := db.clock + 1 }
          else
            { db with
              documents := db.documents ++
                [{ document_id := document_id, name := detail.name.getD "",
                   description := detail.description, owner_id := owner_id,
                   owner_name := owner_name, public := detail.public.getD false,
                   created_at := db.clock, updated_at := none }],
              clock := db.clock + 1 }
        (db', processed + 1, errors)

/-- `SyncService.sync_documents`. -/
def sync_documents (env : Env) (force_refresh : Bool) (db : Db) :
    Db × SyncResult :=
  let (db, handle) := create_sync_log db "documents" (some "Starting document sync")
  match env.get_documents with
  | .error e => (update_sync_log db handle "error" 0 1 e, .err e)
  | .ok response =>
    let documents_data := response.items.getD []
    let (db, processed, errors) := documents_data.foldl (docStep env force_refresh) (db, 0, 0)
    (update_sync_log db handle "success" processed errors
       ("Synced " ++ toString processed ++ " documents"),
     .ok processed errors
       ("Successfully synced " ++ toString processed ++ " documents"))

/-! ## Workspace sync (`SyncService.sync_document_workspaces`) -/

/-- Per-workspace loop body: skip key-less records, then upsert by
`workspace_id`; the parent linkage is set only on creation. -/
def wsStep (document_id : String) :
    Db × Nat × Nat → RemoteWorkspace → Db × Nat × Nat := fun (db, processed, errors) w =>
  match keyOf w.id with
  | none => (db, processed, errors)
  | some workspace_id =>
    let existing := db.workspaces.find? (fun x => x.workspace_id == workspace_id)
    let db' :=
      if existing.isSome then
        { db with
          workspaces := updateFirst (fun x => x.workspace_id == workspace_id)
            (fun x => { x with
              name := w.name.getD ""
              description := w.description
              is_main := w.isMain.getD false
              updated_at := some db.clock }) db.workspaces,
          clock := db.clock + 1 }
      else
        { db with
          workspaces := db.workspaces ++
            [{ workspace_id := workspace_id, document_id := document_id,
               name := w.name.getD "", description := w.description,
               is_main := w.isMain.getD false, created_at := db.clock,
               updated_at := none }],
          clock := db.clock + 1 }
    (db', processed + 1, errors)

/-- `SyncService.sync_document_workspaces`. -/
def sync_document_workspaces (env : Env) (document_id : String) (db : Db) :
    Db × SyncResult :=
  let (db, handle) := create_sync_log db "workspaces"
    (some ("Starting workspace sync for document " ++ document_id))
  match env.get_document_workspaces document_id with
  | .error e => (update_sync_log db handle "error" 0 1 e, .err e)
  | .ok workspaces_data =>
    let (db, processed, errors) := workspaces_data.foldl (wsStep document_id) (db, 0, 0)
    (update_sync_log db handle "success" processed errors
       ("Synced " ++ toString processed ++ " workspaces for document " ++ document_id),
     .ok processed errors
       ("Successfully synced " ++ toString processed ++ " workspaces"))

/-! ## Element sync (`SyncService.sync_document_elements`) -/

/-- Per-element loop body: upsert by `element_id`, parent set on creation. -/
def elStep (document_id : String) :
    Db × Nat × Nat → RemoteElement → Db × Nat × Nat := fun (db, processed, errors) e =>
  match keyOf e.id with
  | none => (db, processed, errors)
  | some element_id =>
    let existing := db.elements.find? (fun x => x.element_id == element_id)
    let db' :=
      if existing.isSome then
        { db with
          elements := updateFirst (fun x => x.element_id == element_id)
            (fun x => { x with
              name := e.name.getD ""
              element_type := e.elementType
              data_type := e.dataType
              thumbnail_id := e.thumbnailId
              updated_at := some db.clock }) db.elements,
          clock := db.clock + 1 }
      else
        { db with
          elements := db.elements ++
            [{ element_id := element_id, document_id := document_id,
               name := e.name.getD "", element_type := e.elementType,
               data_type := e.dataType, thumbnail_id := e.thumbnailId,
               created_at := db.clock, updated_at := none }],
          clock := db.clock + 1 }
    (db', processed + 1, errors)

/-- `SyncService.sync_document_elements`. -/
def sync_document_elements (env : Env) (document_id workspace_id : String)
    (db : Db) : Db × SyncResult :=
  let (db, handle) := create_sync_log db "elements"
    (some ("Starting element sync for document " ++ document_id))
  match env.get_document_elements document_id workspace_id with
  | .error e => (update_sync_log db handle "error" 0 1 e, .err e)
  | .ok elements_data =>
    let (db, processed, errors) := elements_data.foldl (elStep document_id) (db, 0, 0)
    (update_sync_log db handle "success" processed errors
       ("Synced " ++ toString processed ++ " elements for document " ++ document_id),
     .ok processed errors
       ("Successfully synced " ++ toString processed ++ " elements"))

/-! ## Part sync (`SyncService.sync_parts`) -/

/-- Per-part loop body: the mass-properties fetch is wrapped in its own
`try/except pass`, so its failure only leaves the field absent; the part is
then upserted by `part_id`, parent set on creation. -/
def partStep (env : Env) (document_id workspace_id element_id : String) :
    Db × Nat × Nat → RemotePart → Db × Nat × Nat := fun (db, processed, errors) pd =>
  match keyOf pd.partId with
  | none => (db, processed, errors)
  | some part_id =>
    let existing := db.parts.find? (fun x => x.part_id == part_id)
    let mass_properties :=
      match env.get_part_mass_properties document_id workspace_id element_id part_id with
      | .ok m => some m
      | .error _ => none
    let db' :=
      if existing.isSome then
        { db with
          parts := updateFirst (fun x => x.part_id == part_id)
            (fun x => { x with
              name := pd.name.getD ""
              state := pd.state
              body_type := pd.bodyType
              material_properties := pd.materialProperties
              mass_properties := mass_properties
              appearance := pd.appearance
              updated_at := some db.clock }) db.parts,
          clock := db.clock + 1 }
      else
        { db with
          parts := db.parts ++
            [{ part_id := part_id, element_id := element_id,
               name := pd.name.getD "", state := pd.state,
               body_type := pd.bodyType,
               material_properties := pd.materialProperties,
               mass_properties := mass_properties, appearance := pd.appearance,
               created_at := db.clock, updated_at := none }],
          clock := db.clock + 1 }
    (db', processed + 1, errors)

/-- `SyncService.sync_parts`. -/
def sync_parts (env : Env) (document_id workspace_id element_id : String)
    (db : Db) : Db × SyncResult :=
  let (db, handle) := create_sync_log db "parts"
    (some ("Starting parts sync for element " ++ element_id))
  match env.get_parts document_id workspace_id element_id with
  | .error e => (update_sync_log db handle "error" 0 1 e, .err e)
  | .ok parts_data =>
    let (db, processed, errors) := parts_data.foldl
      (partStep env document_id workspace_id element_id) (db, 0, 0)
    (update_sync_log db handle "success" processed errors
       ("Synced " ++ toString processed ++ " parts for element " ++ element_id),
     .ok processed errors
       ("Successfully synced " ++ toString processed ++ " parts"))

/-! ## Feature sync (`SyncService.sync_features`) -/

/-- Per-feature loop body: upsert by `feature_id`, parent set on creation. -/
def featStep (element_id : String) :
    Db × Nat × Nat → RemoteFeature → Db × Nat × Nat := fun (db, processed, errors) fd =>
  match keyOf fd.featureId with
  | none => (db, processed, errors)
  | some feature_id =>
    let existing := db.features.find? (fun x => x.feature_id == feature_id)
    let db' :=
      if existing.isSome then
        { db with
          features := updateFirst (fun x => x.feature_id == feature_id)
            (fun x => { x with
              name := fd.name.getD ""
              feature_type := fd.featureType
              suppressed := fd.suppressed.getD false
              parameters := fd.parameters
              updated_at := some db.clock }) db.features,
          clock := db.clock + 1 }
      else
        { db with
          features := db.features ++
            [{ feature_id := feature_id, element_id := element_id,
               name := fd.name.getD "", feature_type := fd.featureType,
               suppressed := fd.suppressed.getD false,
               parameters := fd.parameters, created_at := db.clock,
               updated_at := none }],
          clock := db.clock + 1 }
    (db', processed + 1, errors)

/-- `SyncService.sync_features`. -/
def sync_features (env : Env) (document_id workspace_id element_id : String)
    (db : Db) : Db × SyncResult :=
  let (db, handle) := create_sync_log db "features"
    (some ("Starting features sync for element " ++ element_id))
  match env.get_features document_id workspace_id element_id with
  | .error e => (update_sync_log db handle "error" 0 1 e, .err e)
  | .ok response =>
    let features_data := response.features.getD []
    let (db, processed, errors) := features_data.foldl (featStep element_id) (db, 0, 0)
    (update_sync_log db handle "success" processed errors
       ("Synced " ++ toString processed ++ " features for element " ++ element_id),
     .ok processed errors
       ("Successfully synced " ++ toString processed ++ " features"))

/-! ## Full sync (`SyncService.full_sync`) -/

/-- Per-element phase of the cascade: only `PARTSTUDIO` elements get a part
sync and a feature sync; their returned counts (0 for a failed phase) are
added to the running totals. -/
def fullSyncElementStep (env : Env) (document_id workspace_id : String) :
    Db × Nat × Nat → ElementRec → Db × Nat × Nat := fun (db, tp, te) el =>
  if el.element_type == some "PARTSTUDIO" then
    let (db, parts_result) := sync_parts env document_id workspace_id el.element_id db
    let tp := tp + parts_result.processedCount
    let te := te + parts_result.errorsCount
    let (db, features_result) := sync_features env document_id workspace_id el.element_id db
    (db, tp + features_result.processedCount, te + features_result.errorsCount)
  else (db, tp, te)

/-- Per-document phase of the cascade: sync workspaces, look up the main
workspace locally (silently skipping descent when there is none), sync
elements against it, then walk this document's locally stored elements. -/
def fullSyncDocStep (env : Env) :
    Db × Nat × Nat → DocumentRec → Db × Nat × Nat := fun (db, tp, te) document =>
  let (db, workspace_result) := sync_document_workspaces env document.document_id db
  let tp := tp + workspace_result.processedCount
  let te := te + workspace_result.errorsCount
  match db.workspaces.find? (fun w =>
      w.document_id == document.document_id && w.is_main) with
  | none => (db, tp, te)
  | some main_workspace =>
    let (db, elements_result) := sync_document_elements env
      document.document_id main_workspace.workspace_id db
    let tp := tp + elements_result.processedCount
    let te := te + elements_result.errorsCount
    let elements := db.elements.filter (fun e =>
      e.document_id == document.document_id)
    elements.foldl (fullSyncElementStep env document.document_id
      main_workspace.workspace_id) (db, tp, te)

/-- The documents a full sync targets: the local rows matching the explicit
id list when that list is truthy (Python `if document_ids:` — `None` and
`[]` both fall through), else the first ten local rows (`limit(10)`). -/
def fullSyncTargets (document_ids : Option (List String)) (db : Db) :
    List DocumentRec :=
  match document_ids with
  | some (i :: ids) =>
      db.documents.filter (fun (d : DocumentRec) =>
        (i :: ids).contains d.document_id)
  | _ => db.documents.take 10

/-- `SyncService.full_sync`: open the root job, run the document sync, pick
the target documents, cascade per document, and close the root job with the
summed returned counts. -/
def full_sync (env : Env) (document_ids : Option (List String)) (db : Db) :
    Db × SyncResult :=
  let (db, handle) := create_sync_log db "full_sync" (some "Starting full sync")
  let (db, doc_result) := sync_documents env false db
  let tp := doc_result.processedCount
  let te := doc_result.errorsCount
  let documents := fullSyncTargets document_ids db
  let (db, tp, te) := documents.foldl (fullSyncDocStep env) (db, tp, te)
  (update_sync_log db handle "success" tp te
     ("Full sync completed: " ++ toString tp ++ " records processed"),
   .ok tp te "Full sync completed successfully")

/-! ## List toolkit -/

/-- The number of records in a batch carrying a truthy external key, read
off by a key projection. -/
def keyedCount (key : α → Option String) (L : List α) : Nat :=
  (L.filterMap (fun r => keyOf (key r))).length

/-- Whether one record carries a truthy key, as a count. -/
def keyBit (key : α → Option String) (b : α) : Nat :=
  match keyOf (key b) with
  | some _ => 1
  | none => 0

/-! ## Leaf-sync runs: failed list fetch

When the list fetch raises, the sync appends exactly one job record, closed
as `error` with counts (0, 1) and the exception text as message (unless that
text is falsy), touches nothing else, and returns the error dict. -/

/-- The job record a failed leaf sync leaves behind. -/
def errorLog (sync_type start_message m : String) (clock : Nat) : SyncLogRec :=
  { sync_type := sync_type, status := "error",
    message := if m = "" then some start_message else some m,
    records_processed := 0, errors_count := 1, started_at := clock,
    completed_at := some (clock + 1) }

/-! ## Every sync invocation closes the job it opened

Each leaf sync appends exactly one job record to the log table, started at
the invocation's clock, finalized (completion stamp set) in a terminal
state: `success` exactly when the list fetch succeeded, `error` when it
raised. -/

/-- The terminal status a fetch outcome dictates. -/
def fetchStatus : Except String α → String
  | .ok _ => "success"
  | .error _ => "error"

/-- A store already holding document `d1`, and a remote page listing `d1`
again. -/
def dbC3 : Db :=
  { emptyDb with documents :=
      [{ document_id := "d1", name := "Old name", description := none,
         owner_id := none, owner_name := none, public := false,
         created_at := 0, updated_at := none }] }

def envC3 : Env :=
  { get_documents := .ok ⟨some [⟨some "d1"⟩]⟩
    get_document := fun _ => .ok ⟨some "New name", none, none, some false⟩
    get_document_workspaces := fun _ => .error "unused"
    get_document_elements := fun _ _ => .error "unused"
    get_parts := fun _ _ _ => .error "unused"
    get_features := fun _ _ _ => .error "unused"
    get_part_mass_properties := fun _ _ _ _ => .error "unused" }

/-- A remote page with keyed and key-less records of every entity type. -/
def envC3w : Env :=
  { get_documents := .ok ⟨some [⟨some "da"⟩]⟩
    get_document := fun _ => .ok ⟨some "N", none, none, none⟩
    get_document_workspaces := fun _ =>
      .ok [⟨some "w1", some "Main", none, some true⟩,
           ⟨none, some "Dropped", none, none⟩, ⟨some "", none, none, none⟩]
    get_document_elements := fun _ _ =>
      .ok [⟨some "e1", none, none, none, none⟩,
           ⟨none, none, none, none, none⟩]
    get_parts := fun _ _ _ =>
      .ok [⟨some "p1", none, none, none, none, none⟩,
           ⟨some "", none, none, none, none, none⟩]
    get_features := fun _ _ _ =>
      .ok ⟨some [⟨some "f1", none, none, none, none⟩,
                 ⟨none, none, none, none, none⟩]⟩
    get_part_mass_properties := fun _ _ _ _ => .error "no mass" }

/-- The try/except-guarded best-effort mass-properties fetch, as the part
loop stores it: the payload when the call succeeds, absent when it raises. -/
def massPropsOf (env : Env) (d w eid k : String) : Option String :=
  match env.get_part_mass_properties d w eid k with
  | .ok m => some m
  | .error _ => none

/-- One remote record of each entity type, fetched identically on every
call. -/
def envC2w : Env :=
  { get_documents := .ok ⟨some [⟨some "d1"⟩]⟩
    get_document := fun _ =>
      .ok ⟨some "Doc", some "desc", some ⟨some "o1", some "Owner"⟩, some true⟩
    get_document_workspaces := fun _ =>
      .ok [⟨some "w1", some "Main", none, some true⟩]
    get_document_elements := fun _ _ =>
      .ok [⟨some "e1", some "PS", some "PARTSTUDIO", some "dt", none⟩]
    get_parts := fun _ _ _ =>
      .ok [⟨some "p1", some "Part", some "IN_PROGRESS", some "solid", none,
            none⟩]
    get_features := fun _ _ _ =>
      .ok ⟨some [⟨some "f1", some "Extrude", some "extrude", some false,
                  none⟩]⟩
    get_part_mass_properties := fun _ _ _ _ => .ok "massdata" }

/-- A store whose workspace `w1` is parented to `dORIG`, while the remote
now reports `w1` under document `dNEW`. -/
def dbC10 : Db :=
  { emptyDb with
      workspaces :=
        [{ workspace_id := "w1", document_id := "dORIG", name := "Old",
           description := none, is_main := false, created_at := 5,
           updated_at := none }] }

/-- Two remote parts; the mass-properties fetch fails for `p1` only. -/
def envC5w : Env :=
  { get_documents := .error "unused"
    get_document := fun _ => .error "unused"
    get_document_workspaces := fun _ => .error "unused"
    get_document_elements := fun _ _ => .error "unused"
    get_parts := fun _ _ _ =>
      .ok [⟨some "p1", some "A", none, none, none, none⟩,
           ⟨some "p2", some "B", none, none, none, none⟩]
    get_features := fun _ _ _ => .error "unused"
    get_part_mass_properties := fun _ _ _ k =>
      if k = "p1" then .error "mass fetch failed" else .ok "massdata" }

/-! ## Cascade scenarios -/

/-- The projection of a job record the cascade claims talk about: kind,
terminal status, and the two counts. -/
def logView (l : SyncLogRec) : String × String × Nat × Nat :=
  (l.sync_type, l.status, l.records_processed, l.errors_count)

/-- One remote document whose workspace-list fetch fails. -/
def envC8 : Env :=
  { get_documents := .ok ⟨some [⟨some "d1"⟩]⟩
    get_document := fun _ => .ok ⟨some "Doc", none, none, none⟩
    get_document_workspaces := fun _ => .error "workspace fetch failed"
    get_document_elements := fun _ _ => .error "unused"
    get_parts := fun _ _ _ => .error "unused"
    get_features := fun _ _ _ => .error "unused"
    get_part_mass_properties := fun _ _ _ _ => .error "unused" }

/-- Two documents; the first-processed one has a failing workspace fetch. -/
def envC6a : Env :=
  { get_documents := .ok ⟨some [⟨some "d2"⟩, ⟨some "d1"⟩]⟩
    get_document := fun _ => .ok ⟨some "Doc", none, none, none⟩
    get_document_workspaces := fun d =>
      if d = "d2" then .error "workspace fetch failed"
      else .ok [⟨some "w1", some "Main", none, some true⟩]
    get_document_elements := fun _ _ => .ok []
    get_parts := fun _ _ _ => .error "unused"
    get_features := fun _ _ _ => .error "unused"
    get_part_mass_properties := fun _ _ _ _ => .error "unused" }

/-- One document with two part studios; the first studio's parts fetch
fails. -/
def envC6b : Env :=
  { get_documents := .ok ⟨some [⟨some "d1"⟩]⟩
    get_document := fun _ => .ok ⟨some "Doc", none, none, none⟩
    get_document_workspaces := fun _ =>
      .ok [⟨some "w1", some "Main", none, some true⟩]
    get_document_elements := fun _ _ =>
      .ok [⟨some "e1", some "S1", some "PARTSTUDIO", none, none⟩,
           ⟨some "e2", some "S2", some "PARTSTUDIO", none, none⟩]
    get_parts := fun _ _ e =>
      if e = "e1" then .error "parts fetch failed" else .ok []
    get_features := fun _ _ _ => .ok ⟨some []⟩
    get_part_mass_properties := fun _ _ _ _ => .error "unused" }

/-- One document whose only workspace is not flagged main. -/
def envC7 : Env :=
  { get_documents := .ok ⟨some [⟨some "d1"⟩]⟩
    get_document := fun _ => .ok ⟨some "Doc", none, none, none⟩
    get_document_workspaces := fun _ =>
      .ok [⟨some "w1", some "Dev", none, some false⟩]
    get_document_elements := fun _ _ => .error "unused"
    get_parts := fun _ _ _ => .error "unused"
    get_features := fun _ _ _ => .error "unused"
    get_part_mass_properties := fun _ _ _ _ => .error "unused" }

/-- The D1/D2 environment of the claim: D1 with two workspaces (one main)
and one PARTSTUDIO element, D2 with no workspaces. -/
def envC7w : Env :=
  { get_documents := .ok ⟨some [⟨some "D1"⟩, ⟨some "D2"⟩]⟩
    get_document := fun _ => .ok ⟨some "Doc", none, none, none⟩
    get_document_workspaces := fun d =>
      if d = "D1" then
        .ok [⟨some "w1", some "Main", none, some true⟩,
             ⟨some "w2", some "Dev", none, some false⟩]
      else .ok []
    get_document_elements := fun _ _ =>
      .ok [⟨some "e1", some "Studio", some "PARTSTUDIO", none, none⟩]
    get_parts := fun _ _ _ => .ok []
    get_features := fun _ _ _ => .ok ⟨some []⟩
    get_part_mass_properties := fun _ _ _ _ => .error "unused" }

/-! Known-answer tests pinning the crypto primitives to their published
vectors. -/

/-- SHA-256 of the empty message (FIPS 180 test vector). -/
theorem sha256_empty_vector :
    sha256 [] = [0xe3, 0xb0, 0xc4, 0x42, 0x98, 0xfc, 0x1c, 0x14, 0x9a, 0xfb,
      0xf4, 0xc8, 0x99, 0x6f, 0xb9, 0x24, 0x27, 0xae, 0x41, 0xe4, 0x64, 0x9b,
      0x93, 0x4c, 0xa4, 0x95, 0x99, 0x1b, 0x78, 0x52, 0xb8, 0x55] := by decide

/-- SHA-256 of "abc" (FIPS 180 test vector). -/
theorem sha256_abc_vector :
    sha256 (utf8 "abc") = [0xba, 0x78, 0x16, 0xbf, 0x8f, 0x01, 0xcf, 0xea,
      0x41, 0x41, 0x40, 0xde, 0x5d, 0xae, 0x22, 0x23, 0xb0, 0x03, 0x61, 0xa3,
      0x96, 0x17, 0x7a, 0x9c, 0xb4, 0x10, 0xff, 0x61, 0xf2, 0x00, 0x15,
      0xad] := by decide

/-- HMAC-SHA-256 test vector (RFC 4231, case 2). -/
theorem hmac_rfc4231_case2 :
    hmacSha256 (utf8 "Jefe") (utf8 "what do ya want for nothing?") =
      [0x5b, 0xdc, 0xc1, 0x46, 0xbf, 0x60, 0x75, 0x4e, 0x6a, 0x04, 0x24, 0x26,
       0x08, 0x95, 0x75, 0xc7, 0x5a, 0x00, 0x3f, 0x08, 0x9d, 0x27, 0x39, 0x83,
       0x9d, 0xec, 0x58, 0xb9, 0x64, 0xec, 0x38, 0x43] := by decide

/-- Base64 test vector. -/
theorem b64encode_man : b64encode (utf8 "Man") = "TWFu" := by decide

theorem urlPath_example :
    urlPath "https://cad.onshape.com/api/v6/documents?limit=100" =
      "/api/v6/documents" := by decide

theorem urlQuery_example :
    urlQuery "https://cad.onshape.com/api/v6/documents?limit=100" =
      "limit=100" := by decide

theorem pyLower_example : pyLower "GET /Api?Q=1" = "get /api?q=1" := by decide

/-- Expansion of `String.intercalate "\n"` on a six-element list. -/
theorem intercalate_six (a b c d e f : String) :
    String.intercalate "\n" [a, b, c, d, e, f] =
      a ++ "\n" ++ b ++ "\n" ++ c ++ "\n" ++ d ++ "\n" ++ e ++ "\n" ++ f := by
  simp [String.intercalate, String.intercalate.go, String.append_assoc]

/-- C1 fails as stated: the client's canonical string carries a trailing
newline after the query component, so its digest differs from the digest of
the newline-separated (unterminated) concatenation the claim describes —
shown here on a concrete GET of the `documents` endpoint. -/
theorem c1_counterexample :
    make_request_authorization cfgC1 "GET" "documents" false
        "RandomNonce123" "Mon, 01 Jan 2024 00:00:00 GMT" ≠
      claimed_authorization cfgC1 "GET" "documents" false
        "RandomNonce123" "Mon, 01 Jan 2024 00:00:00 GMT" := by decide

/-- C1 (amended): for every request the client signs, the `Authorization`
header equals `On <accessKey>:HmacSHA256:<digest>` where the digest is the
base64 HMAC-SHA-256, keyed by the secret, of the lower-cased
newline-*terminated* concatenation of method, nonce, RFC-1123 date,
content-type (empty without a body), URL path, and URL query — each
component, the last included, followed by a newline. -/
theorem c1_signature_amended (cfg : ClientConfig) (method endpoint : String)
    (hasBody : Bool) (nonce auth_date : String) :
    make_request_authorization cfg method endpoint hasBody nonce auth_date =
      amended_authorization cfg method endpoint hasBody nonce auth_date := by
  simp only [make_request_authorization, amended_authorization,
    create_signature, string_to_sign, intercalate_six, String.append_assoc]

/-- C9 fails as stated: a retryable network failure and a permanent 404
response can surface as *literally the same* error value — a generic
`Exception` whose message is the wrapped `str(e)` — so no caller can
determine retryability from the error alone, and there are no three
distinguishable error kinds. -/
theorem c9_counterexample :
    make_request urlC9
        (.network ("404 Client Error: Not Found for url: " ++ urlC9)) =
      make_request urlC9 (.resp 404 "Not Found" (.ok "payload") true) ∧
    (make_request urlC9
        (.resp 404 "Not Found" (.ok "payload") true)).isOk = false := by
  decide

/-- C9 (amended): every failing remote call surfaces as the one generic
error kind `Exception` with message `"Onshape API request failed: "`
followed by the underlying error text — network failures, non-2xx statuses
and malformed payloads are wrapped identically, with no distinct kinds. -/
theorem c9_single_error_kind_amended (url : String) (outcome : ReqOutcome)
    (r : PyErr) (h : make_request url outcome = .error r) :
    ∃ m, r = .exc ("Onshape API request failed: " ++ m) := by
  cases outcome with
  | network m =>
    refine ⟨m, ?_⟩
    simpa [make_request] using h.symm
  | resp status reason body hasContent =>
    simp only [make_request] at h
    cases hr : raise_for_status status reason url with
    | some m =>
      rw [hr] at h
      exact ⟨m, by simpa using h.symm⟩
    | none =>
      rw [hr] at h
      cases hasContent with
      | false => simp at h
      | true =>
        cases body with
        | ok p => simp at h
        | error m => exact ⟨m, by simpa using h.symm⟩

/-- Witness for the amended C9 theorem at a concrete failing call. -/
theorem c9_single_error_kind_witness :
    ∃ m, PyErr.exc ("Onshape API request failed: " ++ "connection refused") =
      .exc ("Onshape API request failed: " ++ m) :=
  c9_single_error_kind_amended urlC9 (.network "connection refused")
    (.exc ("Onshape API request failed: " ++ "connection refused")) (by decide)

theorem modifyAt_append_cons (f : α → α) (l1 l2 : List α) (x : α) :
    modifyAt f l1.length (l1 ++ x :: l2) = l1 ++ f x :: l2 := by
  induction l1 with
  | nil => rfl
  | cons y ys ih => simp [modifyAt, ih]

theorem get?_append_cons (l1 l2 : List α) (x : α) :
    (l1 ++ x :: l2).get? l1.length = some x := by
  induction l1 with
  | nil => rfl
  | cons y ys ih => simpa using ih

theorem find?_append_none {p : α → Bool} {l1 : List α} (l2 : List α)
    (h : l1.find? p = none) : (l1 ++ l2).find? p = l2.find? p := by
  induction l1 with
  | nil => rfl
  | cons y ys ih =>
    rw [List.find?_cons] at h
    cases hy : p y with
    | true => rw [hy] at h; exact absurd h (by simp)
    | false =>
      rw [hy] at h
      simpa [List.find?_cons, hy] using ih h

theorem updateFirst_append_none {p : α → Bool} {l1 : List α} (l2 : List α)
    (f : α → α) (h : l1.find? p = none) :
    updateFirst p f (l1 ++ l2) = l1 ++ updateFirst p f l2 := by
  induction l1 with
  | nil => rfl
  | cons y ys ih =>
    rw [List.find?_cons] at h
    cases hy : p y with
    | true => rw [hy] at h; exact absurd h (by simp)
    | false =>
      rw [hy] at h
      simp [updateFirst, hy, ih h]

theorem forall₂_self {R : α → α → Prop} (l : List α) (hrefl : ∀ x, R x x) :
    List.Forall₂ R l l := by
  induction l with
  | nil => exact List.Forall₂.nil
  | cons y ys ih => exact List.Forall₂.cons (hrefl y) ih

theorem updateFirst_forall₂ {R : α → α → Prop} (p : α → Bool) (f : α → α)
    (l : List α) (hrefl : ∀ x, R x x) (hf : ∀ x, R x (f x)) :
    List.Forall₂ R l (updateFirst p f l) := by
  induction l with
  | nil => exact List.Forall₂.nil
  | cons y ys ih =>
    by_cases hy : p y
    · simpa [updateFirst, hy] using
        List.Forall₂.cons (hf y) (forall₂_self ys hrefl)
    · simpa [updateFirst, hy] using List.Forall₂.cons (hrefl y) ih

/-! ## Reconciliation-loop invariants

For each entity type: the loop touches only its own table and the clock,
counts exactly the keyed records as processed, and never increments the
error counter (no modelled per-record operation can fail except the
caught-and-counted document detail fetch and the swallowed mass-properties
fetch). -/

/-- A projection of the database a loop body never touches is preserved by
the whole fold. -/
theorem foldl_frame {β γ : Type} (step : Db × Nat × Nat → β → Db × Nat × Nat)
    (proj : Db → γ)
    (hstep : ∀ db p e b, proj (step (db, p, e) b).1 = proj db) :
    ∀ (L : List β) db p e, proj (L.foldl step (db, p, e)).1 = proj db := by
  intro L
  induction L with
  | nil => intro db p e; rfl
  | cons b bs ih =>
    intro db p e
    rw [List.foldl_cons]
    calc proj (bs.foldl step (step (db, p, e) b)).1
        = proj (step (db, p, e) b).1 :=
          ih (step (db, p, e) b).1 (step (db, p, e) b).2.1
            (step (db, p, e) b).2.2
      _ = proj db := hstep db p e b

/-- A loop body that advances the processed counter by `cnt b` and the
error counter by `ecnt b` yields their sums over the batch. -/
theorem foldl_counts {β : Type} (step : Db × Nat × Nat → β → Db × Nat × Nat)
    (cnt ecnt : β → Nat)
    (hstep : ∀ db p e b, (step (db, p, e) b).2.1 = p + cnt b ∧
      (step (db, p, e) b).2.2 = e + ecnt b) :
    ∀ (L : List β) db p e,
      (L.foldl step (db, p, e)).2.1 = p + (L.map cnt).sum ∧
      (L.foldl step (db, p, e)).2.2 = e + (L.map ecnt).sum := by
  intro L
  induction L with
  | nil => intro db p e; simp
  | cons b bs ih =>
    intro db p e
    rw [List.foldl_cons]
    obtain ⟨ihp, ihe⟩ := ih (step (db, p, e) b).1 (step (db, p, e) b).2.1
      (step (db, p, e) b).2.2
    obtain ⟨hp, he⟩ := hstep db p e b
    constructor
    · rw [ihp, hp]; simp [Nat.add_assoc]
    · rw [ihe, he]; simp [Nat.add_assoc]

theorem keyedCount_eq_sum (key : α → Option String) (L : List α) :
    (L.map (keyBit key)).sum = keyedCount key L := by
  induction L with
  | nil => rfl
  | cons b bs ih =>
    cases hk : keyOf (key b) with
    | none => simp [keyBit, hk, keyedCount, List.filterMap_cons] at ih ⊢
              simpa [keyedCount] using ih
    | some k => simp [keyBit, hk, keyedCount, List.filterMap_cons] at ih ⊢
                simpa [keyedCount, Nat.add_comm] using ih

theorem wsStep_facts (d : String) (db : Db) (p e : Nat) (w : RemoteWorkspace) :
    (wsStep d (db, p, e) w).1.documents = db.documents ∧
    (wsStep d (db, p, e) w).1.elements = db.elements ∧
    (wsStep d (db, p, e) w).1.parts = db.parts ∧
    (wsStep d (db, p, e) w).1.features = db.features ∧
    (wsStep d (db, p, e) w).1.sync_logs = db.sync_logs ∧
    (wsStep d (db, p, e) w).2.1 = p + keyBit (fun r => r.id) w ∧
    (wsStep d (db, p, e) w).2.2 = e + 0 := by
  cases hk : keyOf w.id with
  | none => simp [wsStep, hk, keyBit]
  | some k =>
    by_cases hex : (db.workspaces.find? (fun x => x.workspace_id == k)).isSome <;>
      simp [wsStep, hk, keyBit, hex]

theorem elStep_facts (d : String) (db : Db) (p e : Nat) (r : RemoteElement) :
    (elStep d (db, p, e) r).1.documents = db.documents ∧
    (elStep d (db, p, e) r).1.workspaces = db.workspaces ∧
    (elStep d (db, p, e) r).1.parts = db.parts ∧
    (elStep d (db, p, e) r).1.features = db.features ∧
    (elStep d (db, p, e) r).1.sync_logs = db.sync_logs ∧
    (elStep d (db, p, e) r).2.1 = p + keyBit (fun x => x.id) r ∧
    (elStep d (db, p, e) r).2.2 = e + 0 := by
  cases hk : keyOf r.id with
  | none => simp [elStep, hk, keyBit]
  | some k =>
    by_cases hex : (db.elements.find? (fun x => x.element_id == k)).isSome <;>
      simp [elStep, hk, keyBit, hex]

theorem partStep_facts (env : Env) (d w eid : String) (db : Db) (p e : Nat)
    (r : RemotePart) :
    (partStep env d w eid (db, p, e) r).1.documents = db.documents ∧
    (partStep env d w eid (db, p, e) r).1.workspaces = db.workspaces ∧
    (partStep env d w eid (db, p, e) r).1.elements = db.elements ∧
    (partStep env d w eid (db, p, e) r).1.features = db.features ∧
    (partStep env d w eid (db, p, e) r).1.sync_logs = db.sync_logs ∧
    (partStep env d w eid (db, p, e) r).2.1 = p + keyBit (fun x => x.partId) r ∧
    (partStep env d w eid (db, p, e) r).2.2 = e + 0 := by
  cases hk : keyOf r.partId with
  | none => simp [partStep, hk, keyBit]
  | some k =>
    by_cases hex : (db.parts.find? (fun x => x.part_id == k)).isSome <;>
      simp [partStep, hk, keyBit, hex]

theorem featStep_facts (eid : String) (db : Db) (p e : Nat)
    (r : RemoteFeature) :
    (featStep eid (db, p, e) r).1.documents = db.documents ∧
    (featStep eid (db, p, e) r).1.workspaces = db.workspaces ∧
    (featStep eid (db, p, e) r).1.elements = db.elements ∧
    (featStep eid (db, p, e) r).1.parts = db.parts ∧
    (featStep eid (db, p, e) r).1.sync_logs = db.sync_logs ∧
    (featStep eid (db, p, e) r).2.1 = p + keyBit (fun x => x.featureId) r ∧
    (featStep eid (db, p, e) r).2.2 = e + 0 := by
  cases hk : keyOf r.featureId with
  | none => simp [featStep, hk, keyBit]
  | some k =>
    by_cases hex : (db.features.find? (fun x => x.feature_id == k)).isSome <;>
      simp [featStep, hk, keyBit, hex]

/-- The document loop body touches only the documents table and the clock;
it counts an error exactly when a keyed, non-skipped record's detail fetch
fails. -/
theorem docStep_frame (env : Env) (frc : Bool) (db : Db) (p e : Nat)
    (r : RemoteDoc) :
    (docStep env frc (db, p, e) r).1.workspaces = db.workspaces ∧
    (docStep env frc (db, p, e) r).1.elements = db.elements ∧
    (docStep env frc (db, p, e) r).1.parts = db.parts ∧
    (docStep env frc (db, p, e) r).1.features = db.features ∧
    (docStep env frc (db, p, e) r).1.sync_logs = db.sync_logs := by
  cases hk : keyOf r.id with
  | none => simp [docStep, hk]
  | some k =>
    cases frc <;>
      by_cases hex : (db.documents.find? (fun x => x.document_id == k)).isSome <;>
      cases hfetch : env.get_document k <;>
      simp [docStep, hk, hex, hfetch]

theorem sync_documents_error_run (env : Env) (frc : Bool) (db : Db)
    (m : String) (h : env.get_documents = .error m) :
    sync_documents env frc db =
      ({ db with
          sync_logs := db.sync_logs ++
            [errorLog "documents" "Starting document sync" m db.clock],
          clock := db.clock + 2 }, .err m) := by
  simp [sync_documents, h, create_sync_log, update_sync_log, errorLog,
    modifyAt_append_cons]

theorem sync_document_workspaces_error_run (env : Env) (d : String) (db : Db)
    (m : String) (h : env.get_document_workspaces d = .error m) :
    sync_document_workspaces env d db =
      ({ db with
          sync_logs := db.sync_logs ++
            [errorLog "workspaces"
              ("Starting workspace sync for document " ++ d) m db.clock],
          clock := db.clock + 2 }, .err m) := by
  simp [sync_document_workspaces, h, create_sync_log, update_sync_log,
    errorLog, modifyAt_append_cons]

theorem sync_document_elements_error_run (env : Env) (d w : String) (db : Db)
    (m : String) (h : env.get_document_elements d w = .error m) :
    sync_document_elements env d w db =
      ({ db with
          sync_logs := db.sync_logs ++
            [errorLog "elements"
              ("Starting element sync for document " ++ d) m db.clock],
          clock := db.clock + 2 }, .err m) := by
  simp [sync_document_elements, h, create_sync_log, update_sync_log,
    errorLog, modifyAt_append_cons]

theorem sync_parts_error_run (env : Env) (d w eid : String) (db : Db)
    (m : String) (h : env.get_parts d w eid = .error m) :
    sync_parts env d w eid db =
      ({ db with
          sync_logs := db.sync_logs ++
            [errorLog "parts"
              ("Starting parts sync for element " ++ eid) m db.clock],
          clock := db.clock + 2 }, .err m) := by
  simp [sync_parts, h, create_sync_log, update_sync_log, errorLog,
    modifyAt_append_cons]

theorem sync_features_error_run (env : Env) (d w eid : String) (db : Db)
    (m : String) (h : env.get_features d w eid = .error m) :
    sync_features env d w eid db =
      ({ db with
          sync_logs := db.sync_logs ++
            [errorLog "features"
              ("Starting features sync for element " ++ eid) m db.clock],
          clock := db.clock + 2 }, .err m) := by
  simp [sync_features, h, create_sync_log, update_sync_log, errorLog,
    modifyAt_append_cons]

theorem sync_document_workspaces_closes_log (env : Env) (d : String)
    (db : Db) :
    ∃ log, (sync_document_workspaces env d db).1.sync_logs =
        db.sync_logs ++ [log] ∧
      log.sync_type = "workspaces" ∧ log.started_at = db.clock ∧
      log.completed_at.isSome = true ∧
      log.status = fetchStatus (env.get_document_workspaces d) := by
  cases hfetch : env.get_document_workspaces d with
  | error m =>
    rw [sync_document_workspaces_error_run env d db m hfetch]
    refine ⟨_, rfl, rfl, rfl, ?_, ?_⟩
    · rfl
    · simp [errorLog, fetchStatus]
  | ok L =>
    simp only [sync_document_workspaces, hfetch, create_sync_log,
      update_sync_log, fetchStatus]
    rw [foldl_frame (wsStep d) (fun db => db.sync_logs)
      (fun db p e b => (wsStep_facts d db p e b).2.2.2.2.1) L]
    rw [show db.sync_logs ++ [_] = db.sync_logs ++ _ :: [] from rfl,
      modifyAt_append_cons]
    exact ⟨_, rfl, rfl, rfl, rfl, rfl⟩

theorem sync_documents_closes_log (env : Env) (frc : Bool) (db : Db) :
    ∃ log, (sync_documents env frc db).1.sync_logs = db.sync_logs ++ [log] ∧
      log.sync_type = "documents" ∧ log.started_at = db.clock ∧
      log.completed_at.isSome = true ∧
      log.status = fetchStatus env.get_documents := by
  cases hfetch : env.get_documents with
  | error m =>
    rw [sync_documents_error_run env frc db m hfetch]
    refine ⟨_, rfl, rfl, rfl, ?_, ?_⟩
    · rfl
    · simp [errorLog, fetchStatus]
  | ok L =>
    simp only [sync_documents, hfetch, create_sync_log, update_sync_log,
      fetchStatus]
    rw [foldl_frame (docStep env frc) (fun db => db.sync_logs)
      (fun db p e b => (docStep_frame env frc db p e b).2.2.2.2)]
    rw [show db.sync_logs ++ [_] = db.sync_logs ++ _ :: [] from rfl,
      modifyAt_append_cons]
    exact ⟨_, rfl, rfl, rfl, rfl, rfl⟩

theorem sync_document_elements_closes_log (env : Env) (d w : String)
    (db : Db) :
    ∃ log, (sync_document_elements env d w db).1.sync_logs =
        db.sync_logs ++ [log] ∧
      log.sync_type = "elements" ∧ log.started_at = db.clock ∧
      log.completed_at.isSome = true ∧
      log.status = fetchStatus (env.get_document_elements d w) := by
  cases hfetch : env.get_document_elements d w with
  | error m =>
    rw [sync_document_elements_error_run env d w db m hfetch]
    refine ⟨_, rfl, rfl, rfl, ?_, ?_⟩
    · rfl
    · simp [errorLog, fetchStatus]
  | ok L =>
    simp only [sync_document_elements, hfetch, create_sync_log,
      update_sync_log, fetchStatus]
    rw [foldl_frame (elStep d) (fun db => db.sync_logs)
      (fun db p e b => (elStep_facts d db p e b).2.2.2.2.1) L]
    rw [show db.sync_logs ++ [_] = db.sync_logs ++ _ :: [] from rfl,
      modifyAt_append_cons]
    exact ⟨_, rfl, rfl, rfl, rfl, rfl⟩

theorem sync_parts_closes_log (env : Env) (d w eid : String) (db : Db) :
    ∃ log, (sync_parts env d w eid db).1.sync_logs = db.sync_logs ++ [log] ∧
      log.sync_type = "parts" ∧ log.started_at = db.clock ∧
      log.completed_at.isSome = true ∧
      log.status = fetchStatus (env.get_parts d w eid) := by
  cases hfetch : env.get_parts d w eid with
  | error m =>
    rw [sync_parts_error_run env d w eid db m hfetch]
    refine ⟨_, rfl, rfl, rfl, ?_, ?_⟩
    · rfl
    · simp [errorLog, fetchStatus]
  | ok L =>
    simp only [sync_parts, hfetch, create_sync_log, update_sync_log,
      fetchStatus]
    rw [foldl_frame (partStep env d w eid) (fun db => db.sync_logs)
      (fun db p e b => (partStep_facts env d w eid db p e b).2.2.2.2.1) L]
    rw [show db.sync_logs ++ [_] = db.sync_logs ++ _ :: [] from rfl,
      modifyAt_append_cons]
    exact ⟨_, rfl, rfl, rfl, rfl, rfl⟩

theorem sync_features_closes_log (env : Env) (d w eid : String) (db : Db) :
    ∃ log, (sync_features env d w eid db).1.sync_logs =
        db.sync_logs ++ [log] ∧
      log.sync_type = "features" ∧ log.started_at = db.clock ∧
      log.completed_at.isSome = true ∧
      log.status = fetchStatus (env.get_features d w eid) := by
  cases hfetch : env.get_features d w eid with
  | error m =>
    rw [sync_features_error_run env d w eid db m hfetch]
    refine ⟨_, rfl, rfl, rfl, ?_, ?_⟩
    · rfl
    · simp [errorLog, fetchStatus]
  | ok L =>
    simp only [sync_features, hfetch, create_sync_log, update_sync_log,
      fetchStatus]
    rw [foldl_frame (featStep eid) (fun db => db.sync_logs)
      (fun db p e b => (featStep_facts eid db p e b).2.2.2.2.1)]
    rw [show db.sync_logs ++ [_] = db.sync_logs ++ _ :: [] from rfl,
      modifyAt_append_cons]
    exact ⟨_, rfl, rfl, rfl, rfl, rfl⟩

/-- Nested phases only append job records; they never disturb rows already
in the log table. Stated for the per-element phase of the cascade. -/
theorem fullSyncElementStep_logs (env : Env) (d w : String) (db : Db)
    (tp te : Nat) (el : ElementRec) :
    ∃ tail, (fullSyncElementStep env d w (db, tp, te) el).1.sync_logs =
      db.sync_logs ++ tail := by
  by_cases hps : el.element_type == some "PARTSTUDIO"
  · obtain ⟨l1, h1, -⟩ := sync_parts_closes_log env d w el.element_id db
    obtain ⟨l2, h2, -⟩ := sync_features_closes_log env d w el.element_id
      (sync_parts env d w el.element_id db).1
    refine ⟨[l1, l2], ?_⟩
    simp only [fullSyncElementStep, hps, if_true]
    rw [h2, h1]
    simp
  · exact ⟨[], by simp [fullSyncElementStep, hps]⟩

theorem fullSyncElementFold_logs (env : Env) (d w : String)
    (els : List ElementRec) :
    ∀ db tp te, ∃ tail,
      (els.foldl (fullSyncElementStep env d w) (db, tp, te)).1.sync_logs =
        db.sync_logs ++ tail := by
  induction els with
  | nil => intro db tp te; exact ⟨[], by simp⟩
  | cons el els ih =>
    intro db tp te
    rw [List.foldl_cons]
    obtain ⟨t0, h0⟩ := fullSyncElementStep_logs env d w db tp te el
    obtain ⟨t1, h1⟩ := ih (fullSyncElementStep env d w (db, tp, te) el).1
      (fullSyncElementStep env d w (db, tp, te) el).2.1
      (fullSyncElementStep env d w (db, tp, te) el).2.2
    exact ⟨t0 ++ t1, by rw [h1, h0, List.append_assoc]⟩

/-- The per-document phase of the cascade likewise only appends job
records. -/
theorem fullSyncDocStep_logs (env : Env) (db : Db) (tp te : Nat)
    (document : DocumentRec) :
    ∃ tail, (fullSyncDocStep env (db, tp, te) document).1.sync_logs =
      db.sync_logs ++ tail := by
  obtain ⟨l1, h1, -⟩ := sync_document_workspaces_closes_log env
    document.document_id db
  simp only [fullSyncDocStep]
  cases hmain : (sync_document_workspaces env document.document_id db).1.workspaces.find?
      (fun w => w.document_id == document.document_id && w.is_main) with
  | none =>
    refine ⟨[l1], ?_⟩
    simp only [hmain]
    exact h1
  | some main_workspace =>
    simp only [hmain]
    obtain ⟨l2, h2, -⟩ := sync_document_elements_closes_log env
      document.document_id main_workspace.workspace_id
      (sync_document_workspaces env document.document_id db).1
    obtain ⟨t3, h3⟩ := fullSyncElementFold_logs env document.document_id
      main_workspace.workspace_id
      ((sync_document_elements env document.document_id
          main_workspace.workspace_id
          (sync_document_workspaces env document.document_id db).1).1.elements.filter
        (fun e => e.document_id == document.document_id))
      (sync_document_elements env document.document_id
        main_workspace.workspace_id
        (sync_document_workspaces env document.document_id db).1).1
      (tp + (sync_document_workspaces env document.document_id db).2.processedCount +
        (sync_document_elements env document.document_id
          main_workspace.workspace_id
          (sync_document_workspaces env document.document_id db).1).2.processedCount)
      (te + (sync_document_workspaces env document.document_id db).2.errorsCount +
        (sync_document_elements env document.document_id
          main_workspace.workspace_id
          (sync_document_workspaces env document.document_id db).1).2.errorsCount)
    refine ⟨l1 :: l2 :: t3, ?_⟩
    rw [h3, h2, h1]
    simp

theorem docFold_logs (env : Env) (docs : List DocumentRec) :
    ∀ db tp te, ∃ tail,
      (docs.foldl (fullSyncDocStep env) (db, tp, te)).1.sync_logs =
        db.sync_logs ++ tail := by
  induction docs with
  | nil => intro db tp te; exact ⟨[], by simp⟩
  | cons doc docs ih =>
    intro db tp te
    rw [List.foldl_cons]
    obtain ⟨t0, h0⟩ := fullSyncDocStep_logs env db tp te doc
    obtain ⟨t1, h1⟩ := ih (fullSyncDocStep env (db, tp, te) doc).1
      (fullSyncDocStep env (db, tp, te) doc).2.1
      (fullSyncDocStep env (db, tp, te) doc).2.2
    exact ⟨t0 ++ t1, by rw [h1, h0, List.append_assoc]⟩

theorem full_sync_closes_log (env : Env) (ids : Option (List String))
    (db : Db) :
    ∃ log tail, (full_sync env ids db).1.sync_logs =
        db.sync_logs ++ log :: tail ∧
      log.sync_type = "full_sync" ∧ log.started_at = db.clock ∧
      log.completed_at.isSome = true ∧ log.status = "success" := by
  simp only [full_sync, create_sync_log, update_sync_log]
  generalize hdb1 : ({ db with
    sync_logs := db.sync_logs ++
      [{ sync_type := "full_sync", status := "in_progress",
         message := some "Starting full sync", records_processed := 0,
         errors_count := 0, started_at := db.clock, completed_at := none }],
    clock := db.clock + 1 } : Db) = db1
  obtain ⟨dlog, hd, -⟩ := sync_documents_closes_log env false db1
  obtain ⟨tl, ht⟩ := docFold_logs env
    (fullSyncTargets ids (sync_documents env false db1).1)
    (sync_documents env false db1).1
    (sync_documents env false db1).2.processedCount
    (sync_documents env false db1).2.errorsCount
  rw [ht, hd, ← hdb1]
  dsimp only
  simp only [List.append_assoc, List.cons_append, List.singleton_append,
    List.nil_append]
  rw [modifyAt_append_cons]
  exact ⟨_, _, rfl, rfl, rfl, rfl, rfl⟩

theorem fetchStatus_terminal {α : Type} (r : Except String α) :
    fetchStatus r = "success" ∨ fetchStatus r = "error" := by
  cases r <;> simp [fetchStatus]

/-- C4: every sync invocation finalizes the job record it opened in a
terminal state exactly once. The record opens as `in_progress` with no
completion stamp; each invocation appends exactly that one record and
closes it — status `success` exactly when the invocation could proceed
(its initial remote list fetch succeeded; `full_sync` itself always runs
to completion), `error` exactly when that fetch raised (per-record errors
never make it `error`) — stamping `completed_at` at that transition. -/
theorem c4_job_terminal (env : Env) (frc : Bool) (d w eid : String)
    (ids : Option (List String)) (db : Db) :
    (∀ t m, ∃ log0, (create_sync_log db t m).1.sync_logs.get?
        db.sync_logs.length = some log0 ∧
      log0.status = "in_progress" ∧ log0.completed_at = none) ∧
    (∃ log, (sync_documents env frc db).1.sync_logs.get?
        db.sync_logs.length = some log ∧
      log.status = fetchStatus env.get_documents ∧
      (log.status = "success" ∨ log.status = "error") ∧
      log.started_at = db.clock ∧ log.completed_at.isSome = true) ∧
    (∃ log, (sync_document_workspaces env d db).1.sync_logs.get?
        db.sync_logs.length = some log ∧
      log.status = fetchStatus (env.get_document_workspaces d) ∧
      (log.status = "success" ∨ log.status = "error") ∧
      log.started_at = db.clock ∧ log.completed_at.isSome = true) ∧
    (∃ log, (sync_document_elements env d w db).1.sync_logs.get?
        db.sync_logs.length = some log ∧
      log.status = fetchStatus (env.get_document_elements d w) ∧
      (log.status = "success" ∨ log.status = "error") ∧
      log.started_at = db.clock ∧ log.completed_at.isSome = true) ∧
    (∃ log, (sync_parts env d w eid db).1.sync_logs.get?
        db.sync_logs.length = some log ∧
      log.status = fetchStatus (env.get_parts d w eid) ∧
      (log.status = "success" ∨ log.status = "error") ∧
      log.started_at = db.clock ∧ log.completed_at.isSome = true) ∧
    (∃ log, (sync_features env d w eid db).1.sync_logs.get?
        db.sync_logs.length = some log ∧
      log.status = fetchStatus (env.get_features d w eid) ∧
      (log.status = "success" ∨ log.status = "error") ∧
      log.started_at = db.clock ∧ log.completed_at.isSome = true) ∧
    (∃ log, (full_sync env ids db).1.sync_logs.get?
        db.sync_logs.length = some log ∧
      log.status = "success" ∧
      log.started_at = db.clock ∧ log.completed_at.isSome = true) := by
  refine ⟨?_, ?_, ?_, ?_, ?_, ?_, ?_⟩
  · intro t m
    refine ⟨{ sync_type := t, status := "in_progress", message := m,
              records_processed := 0, errors_count := 0,
              started_at := db.clock, completed_at := none }, ?_, rfl, rfl⟩
    simp only [create_sync_log]
    exact get?_append_cons db.sync_logs [] _
  · obtain ⟨log, hl, -, hstart, hdone, hs⟩ :=
      sync_documents_closes_log env frc db
    exact ⟨log, by rw [hl]; exact get?_append_cons db.sync_logs [] _, hs,
      by rw [hs]; exact fetchStatus_terminal _, hstart, hdone⟩
  · obtain ⟨log, hl, -, hstart, hdone, hs⟩ :=
      sync_document_workspaces_closes_log env d db
    exact ⟨log, by rw [hl]; exact get?_append_cons db.sync_logs [] _, hs,
      by rw [hs]; exact fetchStatus_terminal _, hstart, hdone⟩
  · obtain ⟨log, hl, -, hstart, hdone, hs⟩ :=
      sync_document_elements_closes_log env d w db
    exact ⟨log, by rw [hl]; exact get?_append_cons db.sync_logs [] _, hs,
      by rw [hs]; exact fetchStatus_terminal _, hstart, hdone⟩
  · obtain ⟨log, hl, -, hstart, hdone, hs⟩ :=
      sync_parts_closes_log env d w eid db
    exact ⟨log, by rw [hl]; exact get?_append_cons db.sync_logs [] _, hs,
      by rw [hs]; exact fetchStatus_terminal _, hstart, hdone⟩
  · obtain ⟨log, hl, -, hstart, hdone, hs⟩ :=
      sync_features_closes_log env d w eid db
    exact ⟨log, by rw [hl]; exact get?_append_cons db.sync_logs [] _, hs,
      by rw [hs]; exact fetchStatus_terminal _, hstart, hdone⟩
  · obtain ⟨log, tail, hl, -, hstart, hdone, hs⟩ :=
      full_sync_closes_log env ids db
    exact ⟨log, by rw [hl]; exact get?_append_cons db.sync_logs tail _, hs,
      hstart, hdone⟩

/-! ## Count behaviour of the reconciliation loops

For workspaces, elements, parts and features the loop processes exactly the
keyed records and never errors; key-less records contribute to neither
counter. -/

theorem wsFold_processed (d : String) (L : List RemoteWorkspace) (db : Db)
    (p e : Nat) :
    (L.foldl (wsStep d) (db, p, e)).2.1 = p + keyedCount (fun r => r.id) L := by
  rw [← keyedCount_eq_sum]
  exact (foldl_counts (wsStep d) (keyBit (fun r => r.id)) (fun _ => 0)
    (fun db p e b => ⟨(wsStep_facts d db p e b).2.2.2.2.2.1,
      (wsStep_facts d db p e b).2.2.2.2.2.2⟩) L db p e).1

theorem wsFold_errors (d : String) (L : List RemoteWorkspace) (db : Db)
    (p e : Nat) : (L.foldl (wsStep d) (db, p, e)).2.2 = e := by
  have h := (foldl_counts (wsStep d) (keyBit (fun r => r.id)) (fun _ => 0)
    (fun db p e b => ⟨(wsStep_facts d db p e b).2.2.2.2.2.1,
      (wsStep_facts d db p e b).2.2.2.2.2.2⟩) L db p e).2
  simpa using h

theorem elFold_processed (d : String) (L : List RemoteElement) (db : Db)
    (p e : Nat) :
    (L.foldl (elStep d) (db, p, e)).2.1 = p + keyedCount (fun r => r.id) L := by
  rw [← keyedCount_eq_sum]
  exact (foldl_counts (elStep d) (keyBit (fun r => r.id)) (fun _ => 0)
    (fun db p e b => ⟨(elStep_facts d db p e b).2.2.2.2.2.1,
      (elStep_facts d db p e b).2.2.2.2.2.2⟩) L db p e).1

theorem elFold_errors (d : String) (L : List RemoteElement) (db : Db)
    (p e : Nat) : (L.foldl (elStep d) (db, p, e)).2.2 = e := by
  have h := (foldl_counts (elStep d) (keyBit (fun r => r.id)) (fun _ => 0)
    (fun db p e b => ⟨(elStep_facts d db p e b).2.2.2.2.2.1,
      (elStep_facts d db p e b).2.2.2.2.2.2⟩) L db p e).2
  simpa using h

theorem partFold_processed (env : Env) (d w eid : String)
    (L : List RemotePart) (db : Db) (p e : Nat) :
    (L.foldl (partStep env d w eid) (db, p, e)).2.1 =
      p + keyedCount (fun r => r.partId) L := by
  rw [← keyedCount_eq_sum]
  exact (foldl_counts (partStep env d w eid) (keyBit (fun r => r.partId))
    (fun _ => 0)
    (fun db p e b => ⟨(partStep_facts env d w eid db p e b).2.2.2.2.2.1,
      (partStep_facts env d w eid db p e b).2.2.2.2.2.2⟩) L db p e).1

theorem partFold_errors (env : Env) (d w eid : String) (L : List RemotePart)
    (db : Db) (p e : Nat) :
    (L.foldl (partStep env d w eid) (db, p, e)).2.2 = e := by
  have h := (foldl_counts (partStep env d w eid) (keyBit (fun r => r.partId))
    (fun _ => 0)
    (fun db p e b => ⟨(partStep_facts env d w eid db p e b).2.2.2.2.2.1,
      (partStep_facts env d w eid db p e b).2.2.2.2.2.2⟩) L db p e).2
  simpa using h

theorem featFold_processed (eid : String) (L : List RemoteFeature) (db : Db)
    (p e : Nat) :
    (L.foldl (featStep eid) (db, p, e)).2.1 =
      p + keyedCount (fun r => r.featureId) L := by
  rw [← keyedCount_eq_sum]
  exact (foldl_counts (featStep eid) (keyBit (fun r => r.featureId))
    (fun _ => 0)
    (fun db p e b => ⟨(featStep_facts eid db p e b).2.2.2.2.2.1,
      (featStep_facts eid db p e b).2.2.2.2.2.2⟩) L db p e).1

theorem featFold_errors (eid : String) (L : List RemoteFeature) (db : Db)
    (p e : Nat) : (L.foldl (featStep eid) (db, p, e)).2.2 = e := by
  have h := (foldl_counts (featStep eid) (keyBit (fun r => r.featureId))
    (fun _ => 0)
    (fun db p e b => ⟨(featStep_facts eid db p e b).2.2.2.2.2.1,
      (featStep_facts eid db p e b).2.2.2.2.2.2⟩) L db p e).2
  simpa using h

/-- A successful workspace fetch always completes with
`processed = keyedCount` and zero errors. -/
theorem sync_document_workspaces_ok_result (env : Env) (d : String) (db : Db)
    (L : List RemoteWorkspace) (h : env.get_document_workspaces d = .ok L) :
    (sync_document_workspaces env d db).2 =
      .ok (keyedCount (fun r => r.id) L) 0
        ("Successfully synced " ++
          toString (keyedCount (fun r => r.id) L) ++ " workspaces") := by
  simp only [sync_document_workspaces, h, create_sync_log, wsFold_processed,
    wsFold_errors, Nat.zero_add]

theorem sync_document_elements_ok_result (env : Env) (d w : String) (db : Db)
    (L : List RemoteElement) (h : env.get_document_elements d w = .ok L) :
    (sync_document_elements env d w db).2 =
      .ok (keyedCount (fun r => r.id) L) 0
        ("Successfully synced " ++
          toString (keyedCount (fun r => r.id) L) ++ " elements") := by
  simp only [sync_document_elements, h, create_sync_log, elFold_processed,
    elFold_errors, Nat.zero_add]

theorem sync_parts_ok_result (env : Env) (d w eid : String) (db : Db)
    (L : List RemotePart) (h : env.get_parts d w eid = .ok L) :
    (sync_parts env d w eid db).2 =
      .ok (keyedCount (fun r => r.partId) L) 0
        ("Successfully synced " ++
          toString (keyedCount (fun r => r.partId) L) ++ " parts") := by
  simp only [sync_parts, h, create_sync_log, partFold_processed,
    partFold_errors, Nat.zero_add]

theorem sync_features_ok_result (env : Env) (d w eid : String) (db : Db)
    (response : FeaturesResponse)
    (h : env.get_features d w eid = .ok response) :
    (sync_features env d w eid db).2 =
      .ok (keyedCount (fun r => r.featureId) (response.features.getD [])) 0
        ("Successfully synced " ++
          toString (keyedCount (fun r => r.featureId)
            (response.features.getD [])) ++ " features") := by
  simp only [sync_features, h, create_sync_log, featFold_processed,
    featFold_errors, Nat.zero_add]

/-- The document loop also processes exactly the keyed records — provided
each keyed record's detail fetch succeeds, none of the batch keys is
already stored (otherwise the default `force_refresh = false` skips it
uncounted), and the batch keys are distinct. -/
theorem docFold_processed_fresh (env : Env) (frc : Bool)
    (L : List RemoteDoc) :
    ∀ db p e,
      (∀ r ∈ L, ∀ k, keyOf r.id = some k →
        (∃ detail, env.get_document k = .ok detail) ∧
        (∀ x ∈ db.documents, x.document_id ≠ k)) →
      (L.filterMap (fun r => keyOf r.id)).Nodup →
      (L.foldl (docStep env frc) (db, p, e)).2.1 =
        p + keyedCount (fun r => r.id) L ∧
      (L.foldl (docStep env frc) (db, p, e)).2.2 = e := by
  induction L with
  | nil => intro db p e _ _; simp [keyedCount]
  | cons r L ih =>
    intro db p e h hnd
    rw [List.foldl_cons]
    cases hk : keyOf r.id with
    | none =>
      have ht := ih db p e (fun r' hr' => h r' (List.mem_cons_of_mem _ hr'))
        (by simpa [List.filterMap_cons, hk] using hnd)
      simpa [docStep, hk, keyedCount, List.filterMap_cons] using ht
    | some k =>
      obtain ⟨⟨detail, hdet⟩, hfree⟩ := h r (List.mem_cons_self r L) k hk
      have hfind : db.documents.find? (fun x => x.document_id == k) = none :=
        List.find?_eq_none.mpr (fun x hx => by
          simpa using hfree x hx)
      have hnotin : k ∉ L.filterMap (fun r' => keyOf r'.id) := by
        have := hnd
        rw [List.filterMap_cons, hk] at this
        exact (List.nodup_cons.mp this).1
      set newrec : DocumentRec :=
        { document_id := k, name := detail.name.getD "",
          description := detail.description,
          owner_id := detail.owner.bind (fun o => o.id),
          owner_name := detail.owner.bind (fun o => o.name),
          public := detail.public.getD false,
          created_at := db.clock, updated_at := none } with hnewrec
      have hstep : docStep env frc (db, p, e) r =
          ({ db with documents := db.documents ++ [newrec]
                     clock := db.clock + 1 }, p + 1, e) := by
        simp [docStep, hk, hfind, hdet, hnewrec]
      rw [hstep]
      have htail := ih
        { db with documents := db.documents ++ [newrec]
                  clock := db.clock + 1 } (p + 1) e (fun r' hr' k' hk' => by
        obtain ⟨hdet', hfree'⟩ := h r' (List.mem_cons_of_mem _ hr') k' hk'
        refine ⟨hdet', fun x hx => ?_⟩
        rcases List.mem_append.mp hx with hx1 | hx2
        · exact hfree' x hx1
        · have hxk : x.document_id = k := by
            rw [List.mem_singleton.mp hx2, hnewrec]
          intro hcontra
          apply hnotin
          rw [hxk] at hcontra
          rw [hcontra]
          exact List.mem_filterMap.mpr ⟨r', hr', hk'⟩)
        (by
          rw [List.filterMap_cons, hk] at hnd
          exact (List.nodup_cons.mp hnd).2)
      refine ⟨?_, htail.2⟩
      rw [htail.1]
      simp [keyedCount, List.filterMap_cons, hk]
      omega

/-- A `false` `isSome` pins the option to `none`. -/
theorem isSome_false_eq_none {α : Type} (o : Option α) (h : o.isSome = false) :
    o = none := by
  cases o with
  | none => rfl
  | some a => simp at h

/-- A reconciliation fold equals the fold over the batch with its key-less
records filtered out, whenever the step ignores key-less records. -/
theorem foldl_filter_keyed {β : Type} (step : Db × Nat × Nat → β → Db × Nat × Nat)
    (keyed : β → Bool)
    (hstep : ∀ s b, keyed b = false → step s b = s) :
    ∀ (L : List β) (s : Db × Nat × Nat),
      L.foldl step s = (L.filter keyed).foldl step s := by
  intro L
  induction L with
  | nil => intro s; rfl
  | cons b L ih =>
    intro s
    rw [List.foldl_cons, List.filter_cons]
    cases hb : keyed b with
    | false =>
      rw [hstep s b hb, if_neg (by simp)]
      exact ih s
    | true =>
      rw [if_pos rfl, List.foldl_cons]
      exact ih (step s b)

/-- `docStep` leaves the state untouched on a key-less record. -/
theorem docStep_keyless (env : Env) (frc : Bool) (s : Db × Nat × Nat)
    (r : RemoteDoc) (h : keyOf r.id = none) :
    docStep env frc s r = s := by
  obtain ⟨db, p, e⟩ := s
  simp [docStep, h]

/-- `wsStep` leaves the state untouched on a key-less record. -/
theorem wsStep_keyless (d : String) (s : Db × Nat × Nat)
    (r : RemoteWorkspace) (h : keyOf r.id = none) :
    wsStep d s r = s := by
  obtain ⟨db, p, e⟩ := s
  simp [wsStep, h]

/-- `elStep` leaves the state untouched on a key-less record. -/
theorem elStep_keyless (d : String) (s : Db × Nat × Nat)
    (r : RemoteElement) (h : keyOf r.id = none) :
    elStep d s r = s := by
  obtain ⟨db, p, e⟩ := s
  simp [elStep, h]

/-- `partStep` leaves the state untouched on a key-less record. -/
theorem partStep_keyless (env : Env) (d w eid : String) (s : Db × Nat × Nat)
    (r : RemotePart) (h : keyOf r.partId = none) :
    partStep env d w eid s r = s := by
  obtain ⟨db, p, e⟩ := s
  simp [partStep, h]

/-- `featStep` leaves the state untouched on a key-less record. -/
theorem featStep_keyless (eid : String) (s : Db × Nat × Nat)
    (r : RemoteFeature) (h : keyOf r.featureId = none) :
    featStep eid s r = s := by
  obtain ⟨db, p, e⟩ := s
  simp [featStep, h]

/-- Under `force_refresh`, a keyed document record with a successful detail
fetch is always counted as processed, stored key or not. -/
theorem docStep_refresh_counts (env : Env) (db : Db) (p e : Nat)
    (r : RemoteDoc) (k : String) (hk : keyOf r.id = some k)
    (detail : RemoteDocDetail) (hdet : env.get_document k = .ok detail) :
    (docStep env true (db, p, e) r).2.1 = p + 1 ∧
    (docStep env true (db, p, e) r).2.2 = e := by
  by_cases hex : (db.documents.find? (fun x => x.document_id == k)).isSome <;>
    simp [docStep, hk, hdet, hex]

/-- The document loop under `force_refresh` counts every keyed record whose
detail fetch succeeds, over any store and with repeated keys allowed. -/
theorem docFold_processed_refresh (env : Env) (L : List RemoteDoc) :
    ∀ db p e,
      (∀ r ∈ L, ∀ k, keyOf r.id = some k →
        ∃ detail, env.get_document k = .ok detail) →
      (L.foldl (docStep env true) (db, p, e)).2.1 =
        p + keyedCount (fun r => r.id) L ∧
      (L.foldl (docStep env true) (db, p, e)).2.2 = e := by
  induction L with
  | nil => intro db p e _; simp [keyedCount]
  | cons r L ih =>
    intro db p e h
    rw [List.foldl_cons]
    cases hk : keyOf r.id with
    | none =>
      have ht := ih db p e (fun r' hr' => h r' (List.mem_cons_of_mem _ hr'))
      simpa [docStep, hk, keyedCount, List.filterMap_cons] using ht
    | some k =>
      obtain ⟨detail, hdet⟩ := h r (List.mem_cons_self r L) k hk
      obtain ⟨db', p', e', hstep⟩ :
          ∃ db' p' e', docStep env true (db, p, e) r = (db', p', e') :=
        ⟨_, _, _, rfl⟩
      have hc := docStep_refresh_counts env db p e r k hk detail hdet
      rw [hstep] at hc
      have hp' : p' = p + 1 := hc.1
      have he' : e' = e := hc.2
      rw [hstep]
      have ht := ih db' p' e' (fun r' hr' => h r' (List.mem_cons_of_mem _ hr'))
      refine ⟨?_, by rw [ht.2, he']⟩
      rw [ht.1, hp']
      simp [keyedCount, List.filterMap_cons, hk]
      omega

/-- C3 fails as stated for the documents sync: a batch of N = 1 keyed
record (and M = 0 key-less ones) completes with `processed = 0`, not
`processed = N`, because `sync_documents` with the default
`force_refresh = false` skips an already-stored document without counting
it. -/
theorem c3_counterexample :
    envC3.get_documents = .ok ⟨some [⟨some "d1"⟩]⟩ ∧
    keyedCount (fun r : RemoteDoc => r.id) [⟨some "d1"⟩] = 1 ∧
    (sync_documents envC3 false dbC3).2 =
      .ok 0 0 "Successfully synced 0 documents" ∧
    (sync_documents envC3 false dbC3).2.processedCount ≠
      keyedCount (fun r : RemoteDoc => r.id) [⟨some "d1"⟩] := by decide

/-- C3 (amended): in every reconciliation batch of every entity type, the
loop's outcome from any starting state equals its outcome on the batch with
the key-less records removed — each key-less record is dropped without
being counted, contributing 0 to both counters. For workspaces, elements,
parts and features the completion counts are unconditionally
`processed = N` (N the keyed records) and `errors = 0`; for documents the
same holds provided each keyed record's detail fetch succeeds and either
`force_refresh` is set (any local store, repeated keys allowed) or the
batch keys are distinct and none is already stored — an already-stored
document is otherwise skipped without being counted. -/
theorem c3_keyless_dropped_amended :
    (∀ env frc (s : Db × Nat × Nat) (L : List RemoteDoc),
      L.foldl (docStep env frc) s =
        (L.filter (fun r => (keyOf r.id).isSome)).foldl (docStep env frc) s) ∧
    (∀ d (s : Db × Nat × Nat) (L : List RemoteWorkspace),
      L.foldl (wsStep d) s =
        (L.filter (fun r => (keyOf r.id).isSome)).foldl (wsStep d) s) ∧
    (∀ d (s : Db × Nat × Nat) (L : List RemoteElement),
      L.foldl (elStep d) s =
        (L.filter (fun r => (keyOf r.id).isSome)).foldl (elStep d) s) ∧
    (∀ env d w eid (s : Db × Nat × Nat) (L : List RemotePart),
      L.foldl (partStep env d w eid) s =
        (L.filter (fun r => (keyOf r.partId).isSome)).foldl
          (partStep env d w eid) s) ∧
    (∀ eid (s : Db × Nat × Nat) (L : List RemoteFeature),
      L.foldl (featStep eid) s =
        (L.filter (fun r => (keyOf r.featureId).isSome)).foldl
          (featStep eid) s) ∧
    (∀ env d db L, env.get_document_workspaces d = .ok L →
      (sync_document_workspaces env d db).2.processedCount =
        keyedCount (fun r => r.id) L ∧
      (sync_document_workspaces env d db).2.errorsCount = 0) ∧
    (∀ env d w db L, env.get_document_elements d w = .ok L →
      (sync_document_elements env d w db).2.processedCount =
        keyedCount (fun r => r.id) L ∧
      (sync_document_elements env d w db).2.errorsCount = 0) ∧
    (∀ env d w eid db L, env.get_parts d w eid = .ok L →
      (sync_parts env d w eid db).2.processedCount =
        keyedCount (fun r => r.partId) L ∧
      (sync_parts env d w eid db).2.errorsCount = 0) ∧
    (∀ env d w eid db resp, env.get_features d w eid = .ok resp →
      (sync_features env d w eid db).2.processedCount =
        keyedCount (fun r => r.featureId) (resp.features.getD []) ∧
      (sync_features env d w eid db).2.errorsCount = 0) ∧
    (∀ env db resp, env.get_documents = .ok resp →
      (∀ r ∈ resp.items.getD [], ∀ k, keyOf r.id = some k →
        ∃ detail, env.get_document k = .ok detail) →
      (sync_documents env true db).2.processedCount =
        keyedCount (fun r => r.id) (resp.items.getD []) ∧
      (sync_documents env true db).2.errorsCount = 0) ∧
    (∀ env frc db resp, env.get_documents = .ok resp →
      (∀ r ∈ resp.items.getD [], ∀ k, keyOf r.id = some k →
        (∃ detail, env.get_document k = .ok detail) ∧
        (∀ x ∈ db.documents, x.document_id ≠ k)) →
      ((resp.items.getD []).filterMap (fun r => keyOf r.id)).Nodup →
      (sync_documents env frc db).2.processedCount =
        keyedCount (fun r => r.id) (resp.items.getD []) ∧
      (sync_documents env frc db).2.errorsCount = 0) := by
  refine ⟨?_, ?_, ?_, ?_, ?_, ?_, ?_, ?_, ?_, ?_, ?_⟩
  · intro env frc s L
    exact foldl_filter_keyed (docStep env frc) (fun r => (keyOf r.id).isSome)
      (fun s r hb => docStep_keyless env frc s r (isSome_false_eq_none _ hb)) L s
  · intro d s L
    exact foldl_filter_keyed (wsStep d) (fun r => (keyOf r.id).isSome)
      (fun s r hb => wsStep_keyless d s r (isSome_false_eq_none _ hb)) L s
  · intro d s L
    exact foldl_filter_keyed (elStep d) (fun r => (keyOf r.id).isSome)
      (fun s r hb => elStep_keyless d s r (isSome_false_eq_none _ hb)) L s
  · intro env d w eid s L
    exact foldl_filter_keyed (partStep env d w eid)
      (fun r => (keyOf r.partId).isSome)
      (fun s r hb => partStep_keyless env d w eid s r
        (isSome_false_eq_none _ hb)) L s
  · intro eid s L
    exact foldl_filter_keyed (featStep eid) (fun r => (keyOf r.featureId).isSome)
      (fun s r hb => featStep_keyless eid s r (isSome_false_eq_none _ hb)) L s
  · intro env d db L h
    rw [sync_document_workspaces_ok_result env d db L h]
    exact ⟨rfl, rfl⟩
  · intro env d w db L h
    rw [sync_document_elements_ok_result env d w db L h]
    exact ⟨rfl, rfl⟩
  · intro env d w eid db L h
    rw [sync_parts_ok_result env d w eid db L h]
    exact ⟨rfl, rfl⟩
  · intro env d w eid db resp h
    rw [sync_features_ok_result env d w eid db resp h]
    exact ⟨rfl, rfl⟩
  · intro env db resp h hok
    simp only [sync_documents, h, create_sync_log,
      SyncResult.processedCount, SyncResult.errorsCount]
    have hfold := docFold_processed_refresh env (resp.items.getD [])
      { db with
          sync_logs := db.sync_logs ++
            [{ sync_type := "documents", status := "in_progress",
                message := some "Starting document sync",
                records_processed := 0, errors_count := 0,
                started_at := db.clock, completed_at := none }]
          clock := db.clock + 1 } 0 0 (fun r hr k hk => hok r hr k hk)
    exact ⟨by simpa using hfold.1, hfold.2⟩
  · intro env frc db resp h hok hnd
    simp only [sync_documents, h, create_sync_log,
      SyncResult.processedCount, SyncResult.errorsCount]
    have hfold := docFold_processed_fresh env frc (resp.items.getD [])
      { db with
          sync_logs := db.sync_logs ++
            [{ sync_type := "documents", status := "in_progress",
                message := some "Starting document sync",
                records_processed := 0, errors_count := 0,
                started_at := db.clock, completed_at := none }]
          clock := db.clock + 1 } 0 0 (fun r hr k hk => hok r hr k hk) hnd
    exact ⟨by simpa using hfold.1, hfold.2⟩

/-- Witness for the amended C3 at concrete environments: key-less records
of every kind, and a force-refresh documents run over an already-stored
key. -/
theorem c3_keyless_dropped_witness :
    ((sync_document_workspaces envC3w "d" emptyDb).2.processedCount =
       keyedCount (fun r : RemoteWorkspace => r.id)
         [⟨some "w1", some "Main", none, some true⟩,
          ⟨none, some "Dropped", none, none⟩,
          ⟨some "", none, none, none⟩] ∧
     (sync_document_workspaces envC3w "d" emptyDb).2.errorsCount = 0) ∧
    ((sync_document_elements envC3w "d" "w" emptyDb).2.processedCount =
       keyedCount (fun r : RemoteElement => r.id)
         [⟨some "e1", none, none, none, none⟩,
          ⟨none, none, none, none, none⟩] ∧
     (sync_document_elements envC3w "d" "w" emptyDb).2.errorsCount = 0) ∧
    ((sync_parts envC3w "d" "w" "e" emptyDb).2.processedCount =
       keyedCount (fun r : RemotePart => r.partId)
         [⟨some "p1", none, none, none, none, none⟩,
          ⟨some "", none, none, none, none, none⟩] ∧
     (sync_parts envC3w "d" "w" "e" emptyDb).2.errorsCount = 0) ∧
    ((sync_features envC3w "d" "w" "e" emptyDb).2.processedCount =
       keyedCount (fun r : RemoteFeature => r.featureId)
         [⟨some "f1", none, none, none, none⟩,
          ⟨none, none, none, none, none⟩] ∧
     (sync_features envC3w "d" "w" "e" emptyDb).2.errorsCount = 0) ∧
    ((sync_documents envC3w false emptyDb).2.processedCount =
       keyedCount (fun r : RemoteDoc => r.id) [⟨some "da"⟩] ∧
     (sync_documents envC3w false emptyDb).2.errorsCount = 0) ∧
    ((sync_documents envC3 true dbC3).2.processedCount =
       keyedCount (fun r : RemoteDoc => r.id) [⟨some "d1"⟩] ∧
     (sync_documents envC3 true dbC3).2.errorsCount = 0) :=
  ⟨c3_keyless_dropped_amended.2.2.2.2.2.1 envC3w "d" emptyDb _ rfl,
   c3_keyless_dropped_amended.2.2.2.2.2.2.1 envC3w "d" "w" emptyDb _ rfl,
   c3_keyless_dropped_amended.2.2.2.2.2.2.2.1 envC3w "d" "w" "e" emptyDb _ rfl,
   c3_keyless_dropped_amended.2.2.2.2.2.2.2.2.1 envC3w "d" "w" "e" emptyDb _ rfl,
   c3_keyless_dropped_amended.2.2.2.2.2.2.2.2.2.2 envC3w false emptyDb
     ⟨some [⟨some "da"⟩]⟩
     rfl
     (fun r hr k hk => by
       rw [List.mem_singleton.mp hr] at hk
       have hkda : k = "da" := by
         simpa [keyOf] using hk.symm
       subst hkda
       exact ⟨⟨⟨some "N", none, none, none⟩, rfl⟩, by simp [emptyDb]⟩)
     (by decide),
   c3_keyless_dropped_amended.2.2.2.2.2.2.2.2.2.1 envC3 dbC3
     ⟨some [⟨some "d1"⟩]⟩
     rfl
     (fun r hr k hk =>
       ⟨⟨some "New name", none, none, some false⟩, rfl⟩)⟩

/-! ## Singleton reconciliation runs

What one sync invocation does to its own table when the fetched batch is a
single record: insert when the key is unseen, update in place when it is
stored. -/

theorem sync_ws_singleton_insert (env : Env) (d : String) (db : Db)
    (w : RemoteWorkspace) (k : String)
    (hfetch : env.get_document_workspaces d = .ok [w])
    (hk : keyOf w.id = some k)
    (hfresh : db.workspaces.find? (fun x => x.workspace_id == k) = none) :
    (sync_document_workspaces env d db).1.workspaces =
      db.workspaces ++
        [{ workspace_id := k, document_id := d, name := w.name.getD "",
           description := w.description, is_main := w.isMain.getD false,
           created_at := db.clock + 1, updated_at := none }] := by
  simp only [sync_document_workspaces, hfetch, create_sync_log,
    update_sync_log, List.foldl_cons, List.foldl_nil]
  simp [wsStep, hk, hfresh]

theorem sync_ws_singleton_update (env : Env) (d : String) (db : Db)
    (w : RemoteWorkspace) (k : String) (pre : List WorkspaceRec)
    (x0 : WorkspaceRec)
    (hfetch : env.get_document_workspaces d = .ok [w])
    (hk : keyOf w.id = some k)
    (hws : db.workspaces = pre ++ [x0])
    (hfresh : pre.find? (fun x => x.workspace_id == k) = none)
    (hx0 : x0.workspace_id = k) :
    (sync_document_workspaces env d db).1.workspaces =
      pre ++ [{ x0 with name := w.name.getD "",
                        description := w.description,
                        is_main := w.isMain.getD false,
                        updated_at := some (db.clock + 1) }] := by
  simp only [sync_document_workspaces, hfetch, create_sync_log,
    update_sync_log, List.foldl_cons, List.foldl_nil]
  have hfind : (pre ++ [x0]).find? (fun x => x.workspace_id == k) = some x0 := by
    rw [find?_append_none [x0] hfresh]
    simp [List.find?, hx0]
  have hupd : updateFirst (fun x => x.workspace_id == k)
      (fun x => { x with name := w.name.getD "",
                         description := w.description,
                         is_main := w.isMain.getD false,
                         updated_at := some (db.clock + 1) })
      (pre ++ [x0]) =
      pre ++ [{ x0 with name := w.name.getD "",
                        description := w.description,
                        is_main := w.isMain.getD false,
                        updated_at := some (db.clock + 1) }] := by
    rw [updateFirst_append_none [x0] _ hfresh]
    simp [updateFirst, hx0]
  simp [wsStep, hk, hws, hfind, hupd]

theorem sync_el_singleton_insert (env : Env) (d w : String) (db : Db)
    (r : RemoteElement) (k : String)
    (hfetch : env.get_document_elements d w = .ok [r])
    (hk : keyOf r.id = some k)
    (hfresh : db.elements.find? (fun x => x.element_id == k) = none) :
    (sync_document_elements env d w db).1.elements =
      db.elements ++
        [{ element_id := k, document_id := d, name := r.name.getD "",
           element_type := r.elementType, data_type := r.dataType,
           thumbnail_id := r.thumbnailId, created_at := db.clock + 1,
           updated_at := none }] := by
  simp only [sync_document_elements, hfetch, create_sync_log,
    update_sync_log, List.foldl_cons, List.foldl_nil]
  simp [elStep, hk, hfresh]

theorem sync_el_singleton_update (env : Env) (d w : String) (db : Db)
    (r : RemoteElement) (k : String) (pre : List ElementRec)
    (x0 : ElementRec)
    (hfetch : env.get_document_elements d w = .ok [r])
    (hk : keyOf r.id = some k)
    (hel : db.elements = pre ++ [x0])
    (hfresh : pre.find? (fun x => x.element_id == k) = none)
    (hx0 : x0.element_id = k) :
    (sync_document_elements env d w db).1.elements =
      pre ++ [{ x0 with name := r.name.getD "",
                        element_type := r.elementType,
                        data_type := r.dataType,
                        thumbnail_id := r.thumbnailId,
                        updated_at := some (db.clock + 1) }] := by
  simp only [sync_document_elements, hfetch, create_sync_log,
    update_sync_log, List.foldl_cons, List.foldl_nil]
  have hfind : (pre ++ [x0]).find? (fun x => x.element_id == k) = some x0 := by
    rw [find?_append_none [x0] hfresh]
    simp [List.find?, hx0]
  have hupd : updateFirst (fun x => x.element_id == k)
      (fun x => { x with name := r.name.getD "",
                         element_type := r.elementType,
                         data_type := r.dataType,
                         thumbnail_id := r.thumbnailId,
                         updated_at := some (db.clock + 1) })
      (pre ++ [x0]) =
      pre ++ [{ x0 with name := r.name.getD "",
                        element_type := r.elementType,
                        data_type := r.dataType,
                        thumbnail_id := r.thumbnailId,
                        updated_at := some (db.clock + 1) }] := by
    rw [updateFirst_append_none [x0] _ hfresh]
    simp [updateFirst, hx0]
  simp [elStep, hk, hel, hfind, hupd]

theorem sync_part_singleton_insert (env : Env) (d w eid : String) (db : Db)
    (r : RemotePart) (k : String)
    (hfetch : env.get_parts d w eid = .ok [r])
    (hk : keyOf r.partId = some k)
    (hfresh : db.parts.find? (fun x => x.part_id == k) = none) :
    (sync_parts env d w eid db).1.parts =
      db.parts ++
        [{ part_id := k, element_id := eid, name := r.name.getD "",
           state := r.state, body_type := r.bodyType,
           material_properties := r.materialProperties,
           mass_properties := massPropsOf env d w eid k,
           appearance := r.appearance, created_at := db.clock + 1,
           updated_at := none }] := by
  simp only [sync_parts, hfetch, create_sync_log, update_sync_log,
    List.foldl_cons, List.foldl_nil]
  cases hm : env.get_part_mass_properties d w eid k <;>
    simp [partStep, hk, hfresh, massPropsOf, hm]

theorem sync_part_singleton_update (env : Env) (d w eid : String) (db : Db)
    (r : RemotePart) (k : String) (pre : List PartRec) (x0 : PartRec)
    (hfetch : env.get_parts d w eid = .ok [r])
    (hk : keyOf r.partId = some k)
    (hparts : db.parts = pre ++ [x0])
    (hfresh : pre.find? (fun x => x.part_id == k) = none)
    (hx0 : x0.part_id = k) :
    (sync_parts env d w eid db).1.parts =
      pre ++ [{ x0 with name := r.name.getD "",
                        state := r.state,
                        body_type := r.bodyType,
                        material_properties := r.materialProperties,
                        mass_properties := massPropsOf env d w eid k,
                        appearance := r.appearance,
                        updated_at := some (db.clock + 1) }] := by
  simp only [sync_parts, hfetch, create_sync_log, update_sync_log,
    List.foldl_cons, List.foldl_nil]
  have hfind : (pre ++ [x0]).find? (fun x => x.part_id == k) = some x0 := by
    rw [find?_append_none [x0] hfresh]
    simp [List.find?, hx0]
  have hupd : updateFirst (fun x => x.part_id == k)
      (fun x => { x with name := r.name.getD "",
                         state := r.state,
                         body_type := r.bodyType,
                         material_properties := r.materialProperties,
                         mass_properties := massPropsOf env d w eid k,
                         appearance := r.appearance,
                         updated_at := some (db.clock + 1) })
      (pre ++ [x0]) =
      pre ++ [{ x0 with name := r.name.getD "",
                        state := r.state,
                        body_type := r.bodyType,
                        material_properties := r.materialProperties,
                        mass_properties := massPropsOf env d w eid k,
                        appearance := r.appearance,
                        updated_at := some (db.clock + 1) }] := by
    rw [updateFirst_append_none [x0] _ hfresh]
    simp [updateFirst, hx0]
  cases hm : env.get_part_mass_properties d w eid k <;>
    simp only [massPropsOf, hm] at hupd ⊢ <;>
    simp [partStep, hk, hparts, hfind, hupd, hm]

theorem sync_feat_singleton_insert (env : Env) (d w eid : String) (db : Db)
    (r : RemoteFeature) (k : String)
    (hfetch : env.get_features d w eid = .ok ⟨some [r]⟩)
    (hk : keyOf r.featureId = some k)
    (hfresh : db.features.find? (fun x => x.feature_id == k) = none) :
    (sync_features env d w eid db).1.features =
      db.features ++
        [{ feature_id := k, element_id := eid, name := r.name.getD "",
           feature_type := r.featureType,
           suppressed := r.suppressed.getD false,
           parameters := r.parameters, created_at := db.clock + 1,
           updated_at := none }] := by
  simp only [sync_features, hfetch, create_sync_log, update_sync_log,
    List.foldl_cons, List.foldl_nil]
  simp [featStep, hk, hfresh]

theorem sync_feat_singleton_update (env : Env) (d w eid : String) (db : Db)
    (r : RemoteFeature) (k : String) (pre : List FeatureRec)
    (x0 : FeatureRec)
    (hfetch : env.get_features d w eid = .ok ⟨some [r]⟩)
    (hk : keyOf r.featureId = some k)
    (hfeat : db.features = pre ++ [x0])
    (hfresh : pre.find? (fun x => x.feature_id == k) = none)
    (hx0 : x0.feature_id = k) :
    (sync_features env d w eid db).1.features =
      pre ++ [{ x0 with name := r.name.getD "",
                        feature_type := r.featureType,
                        suppressed := r.suppressed.getD false,
                        parameters := r.parameters,
                        updated_at := some (db.clock + 1) }] := by
  simp only [sync_features, hfetch, create_sync_log, update_sync_log,
    List.foldl_cons, List.foldl_nil]
  have hfind : (pre ++ [x0]).find? (fun x => x.feature_id == k) = some x0 := by
    rw [find?_append_none [x0] hfresh]
    simp [List.find?, hx0]
  have hupd : updateFirst (fun x => x.feature_id == k)
      (fun x => { x with name := r.name.getD "",
                         feature_type := r.featureType,
                         suppressed := r.suppressed.getD false,
                         parameters := r.parameters,
                         updated_at := some (db.clock + 1) })
      (pre ++ [x0]) =
      pre ++ [{ x0 with name := r.name.getD "",
                        feature_type := r.featureType,
                        suppressed := r.suppressed.getD false,
                        parameters := r.parameters,
                        updated_at := some (db.clock + 1) }] := by
    rw [updateFirst_append_none [x0] _ hfresh]
    simp [updateFirst, hx0]
  simp [featStep, hk, hfeat, hfind, hupd]

theorem sync_documents_singleton_insert (env : Env) (frc : Bool) (db : Db)
    (r : RemoteDoc) (k : String) (detail : RemoteDocDetail)
    (hfetch : env.get_documents = .ok ⟨some [r]⟩)
    (hk : keyOf r.id = some k)
    (hdet : env.get_document k = .ok detail)
    (hfresh : db.documents.find? (fun x => x.document_id == k) = none) :
    (sync_documents env frc db).1.documents =
      db.documents ++
        [{ document_id := k, name := detail.name.getD "",
           description := detail.description,
           owner_id := detail.owner.bind (fun o => o.id),
           owner_name := detail.owner.bind (fun o => o.name),
           public := detail.public.getD false, created_at := db.clock + 1,
           updated_at := none }] := by
  simp only [sync_documents, hfetch, create_sync_log, update_sync_log,
    List.foldl_cons, List.foldl_nil]
  simp [docStep, hk, hdet, hfresh]

theorem sync_documents_singleton_skip (env : Env) (db : Db)
    (r : RemoteDoc) (k : String)
    (hfetch : env.get_documents = .ok ⟨some [r]⟩)
    (hk : keyOf r.id = some k)
    (hfound : (db.documents.find? (fun x => x.document_id == k)).isSome =
      true) :
    (sync_documents env false db).1.documents = db.documents := by
  simp only [sync_documents, hfetch, create_sync_log, update_sync_log,
    List.foldl_cons, List.foldl_nil]
  simp [docStep, hk, hfound]

theorem sync_documents_singleton_update (env : Env) (db : Db)
    (r : RemoteDoc) (k : String) (detail : RemoteDocDetail)
    (pre : List DocumentRec) (x0 : DocumentRec)
    (hfetch : env.get_documents = .ok ⟨some [r]⟩)
    (hk : keyOf r.id = some k)
    (hdet : env.get_document k = .ok detail)
    (hdocs : db.documents = pre ++ [x0])
    (hfresh : pre.find? (fun x => x.document_id == k) = none)
    (hx0 : x0.document_id = k) :
    (sync_documents env true db).1.documents =
      pre ++ [{ x0 with name := detail.name.getD "",
                        description := detail.description,
                        owner_id := detail.owner.bind (fun o => o.id),
                        owner_name := detail.owner.bind (fun o => o.name),
                        public := detail.public.getD false,
                        updated_at := some (db.clock + 1) }] := by
  simp only [sync_documents, hfetch, create_sync_log, update_sync_log,
    List.foldl_cons, List.foldl_nil]
  have hfind : (pre ++ [x0]).find? (fun x => x.document_id == k) = some x0 := by
    rw [find?_append_none [x0] hfresh]
    simp [List.find?, hx0]
  have hupd : updateFirst (fun x => x.document_id == k)
      (fun x => { x with name := detail.name.getD "",
                         description := detail.description,
                         owner_id := detail.owner.bind (fun o => o.id),
                         owner_name := detail.owner.bind (fun o => o.name),
                         public := detail.public.getD false,
                         updated_at := some (db.clock + 1) })
      (pre ++ [x0]) =
      pre ++ [{ x0 with name := detail.name.getD "",
                        description := detail.description,
                        owner_id := detail.owner.bind (fun o => o.id),
                        owner_name := detail.owner.bind (fun o => o.name),
                        public := detail.public.getD false,
                        updated_at := some (db.clock + 1) }] := by
    rw [updateFirst_append_none [x0] _ hfresh]
    simp [updateFirst, hx0]
  simp [docStep, hk, hdet, hdocs, hfind, hupd]

/-- C2: reconciling the same remote record twice yields exactly one local
record for its external key, for every entity type. The first run creates
the record with its parent linkage (`document_id` for workspaces, the
synced document's key; `element_id` for parts and features); the second run
leaves that single record in place with its mutable fields equal to the
remote values — updating in place for workspaces, elements, parts and
features and for documents under `force_refresh`; a re-observed document
without `force_refresh` is left untouched rather than duplicated. -/
theorem c2_upsert_idempotent :
    (∀ env d db w k, env.get_document_workspaces d = .ok [w] →
      keyOf w.id = some k →
      db.workspaces.find? (fun x => x.workspace_id == k) = none →
      (∃ c t, (sync_document_workspaces env d
          (sync_document_workspaces env d db).1).1.workspaces =
        db.workspaces ++
          [{ workspace_id := k, document_id := d, name := w.name.getD "",
             description := w.description, is_main := w.isMain.getD false,
             created_at := c, updated_at := t }]) ∧
      ((sync_document_workspaces env d
          (sync_document_workspaces env d db).1).1.workspaces.filter
        (fun x => x.workspace_id == k)).length = 1) ∧
    (∀ env d w db r k, env.get_document_elements d w = .ok [r] →
      keyOf r.id = some k →
      db.elements.find? (fun x => x.element_id == k) = none →
      (∃ c t, (sync_document_elements env d w
          (sync_document_elements env d w db).1).1.elements =
        db.elements ++
          [{ element_id := k, document_id := d, name := r.name.getD "",
             element_type := r.elementType, data_type := r.dataType,
             thumbnail_id := r.thumbnailId,
             created_at := c, updated_at := t }]) ∧
      ((sync_document_elements env d w
          (sync_document_elements env d w db).1).1.elements.filter
        (fun x => x.element_id == k)).length = 1) ∧
    (∀ env d w eid db r k, env.get_parts d w eid = .ok [r] →
      keyOf r.partId = some k →
      db.parts.find? (fun x => x.part_id == k) = none →
      (∃ c t, (sync_parts env d w eid
          (sync_parts env d w eid db).1).1.parts =
        db.parts ++
          [{ part_id := k, element_id := eid, name := r.name.getD "",
             state := r.state, body_type := r.bodyType,
             material_properties := r.materialProperties,
             mass_properties := massPropsOf env d w eid k,
             appearance := r.appearance,
             created_at := c, updated_at := t }]) ∧
      ((sync_parts env d w eid
          (sync_parts env d w eid db).1).1.parts.filter
        (fun x => x.part_id == k)).length = 1) ∧
    (∀ env d w eid db r k, env.get_features d w eid = .ok ⟨some [r]⟩ →
      keyOf r.featureId = some k →
      db.features.find? (fun x => x.feature_id == k) = none →
      (∃ c t, (sync_features env d w eid
          (sync_features env d w eid db).1).1.features =
        db.features ++
          [{ feature_id := k, element_id := eid, name := r.name.getD "",
             feature_type := r.featureType,
             suppressed := r.suppressed.getD false,
             parameters := r.parameters,
             created_at := c, updated_at := t }]) ∧
      ((sync_features env d w eid
          (sync_features env d w eid db).1).1.features.filter
        (fun x => x.feature_id == k)).length = 1) ∧
    (∀ env frc db r k detail, env.get_documents = .ok ⟨some [r]⟩ →
      keyOf r.id = some k →
      env.get_document k = .ok detail →
      db.documents.find? (fun x => x.document_id == k) = none →
      (∃ c t, (sync_documents env frc
          (sync_documents env frc db).1).1.documents =
        db.documents ++
          [{ document_id := k, name := detail.name.getD "",
             description := detail.description,
             owner_id := detail.owner.bind (fun o => o.id),
             owner_name := detail.owner.bind (fun o => o.name),
             public := detail.public.getD false,
             created_at := c, updated_at := t }]) ∧
      ((sync_documents env frc
          (sync_documents env frc db).1).1.documents.filter
        (fun x => x.document_id == k)).length = 1) := by
  refine ⟨?_, ?_, ?_, ?_, ?_⟩
  · intro env d db w k hfetch hk hfresh
    have hno : ∀ x ∈ db.workspaces, ¬(x.workspace_id == k) = true :=
      List.find?_eq_none.mp hfresh
    have h1 := sync_ws_singleton_insert env d db w k hfetch hk hfresh
    have h2 := sync_ws_singleton_update env d
      (sync_document_workspaces env d db).1 w k db.workspaces
      { workspace_id := k, document_id := d, name := w.name.getD "",
        description := w.description, is_main := w.isMain.getD false,
        created_at := db.clock + 1, updated_at := none }
      hfetch hk h1 hfresh rfl
    constructor
    · exact ⟨db.clock + 1,
        some ((sync_document_workspaces env d db).1.clock + 1),
        by rw [h2]⟩
    · rw [h2, List.filter_append, List.filter_eq_nil_iff.mpr hno]
      simp
  · intro env d w db r k hfetch hk hfresh
    have hno : ∀ x ∈ db.elements, ¬(x.element_id == k) = true :=
      List.find?_eq_none.mp hfresh
    have h1 := sync_el_singleton_insert env d w db r k hfetch hk hfresh
    have h2 := sync_el_singleton_update env d w
      (sync_document_elements env d w db).1 r k db.elements
      { element_id := k, document_id := d, name := r.name.getD "",
        element_type := r.elementType, data_type := r.dataType,
        thumbnail_id := r.thumbnailId, created_at := db.clock + 1,
        updated_at := none }
      hfetch hk h1 hfresh rfl
    constructor
    · exact ⟨db.clock + 1,
        some ((sync_document_elements env d w db).1.clock + 1),
        by rw [h2]⟩
    · rw [h2, List.filter_append, List.filter_eq_nil_iff.mpr hno]
      simp
  · intro env d w eid db r k hfetch hk hfresh
    have hno : ∀ x ∈ db.parts, ¬(x.part_id == k) = true :=
      List.find?_eq_none.mp hfresh
    have h1 := sync_part_singleton_insert env d w eid db r k hfetch hk hfresh
    have h2 := sync_part_singleton_update env d w eid
      (sync_parts env d w eid db).1 r k db.parts
      { part_id := k, element_id := eid, name := r.name.getD "",
        state := r.state, body_type := r.bodyType,
        material_properties := r.materialProperties,
        mass_properties := massPropsOf env d w eid k,
        appearance := r.appearance, created_at := db.clock + 1,
        updated_at := none }
      hfetch hk h1 hfresh rfl
    constructor
    · exact ⟨db.clock + 1,
        some ((sync_parts env d w eid db).1.clock + 1),
        by rw [h2]⟩
    · rw [h2, List.filter_append, List.filter_eq_nil_iff.mpr hno]
      simp
  · intro env d w eid db r k hfetch hk hfresh
    have hno : ∀ x ∈ db.features, ¬(x.feature_id == k) = true :=
      List.find?_eq_none.mp hfresh
    have h1 := sync_feat_singleton_insert env d w eid db r k hfetch hk hfresh
    have h2 := sync_feat_singleton_update env d w eid
      (sync_features env d w eid db).1 r k db.features
      { feature_id := k, element_id := eid, name := r.name.getD "",
        feature_type := r.featureType,
        suppressed := r.suppressed.getD false,
        parameters := r.parameters, created_at := db.clock + 1,
        updated_at := none }
      hfetch hk h1 hfresh rfl
    constructor
    · exact ⟨db.clock + 1,
        some ((sync_features env d w eid db).1.clock + 1),
        by rw [h2]⟩
    · rw [h2, List.filter_append, List.filter_eq_nil_iff.mpr hno]
      simp
  · intro env frc db r k detail hfetch hk hdet hfresh
    have hno : ∀ x ∈ db.documents, ¬(x.document_id == k) = true :=
      List.find?_eq_none.mp hfresh
    have h1 := sync_documents_singleton_insert env frc db r k detail
      hfetch hk hdet hfresh
    have hfind1 : ((sync_documents env frc db).1.documents.find?
        (fun x => x.document_id == k)).isSome = true := by
      rw [h1, find?_append_none _ hfresh]
      simp [List.find?]
    cases frc with
    | false =>
      have h2 := sync_documents_singleton_skip env
        (sync_documents env false db).1 r k hfetch hk hfind1
      constructor
      · exact ⟨db.clock + 1, none, by rw [h2, h1]⟩
      · rw [h2, h1, List.filter_append, List.filter_eq_nil_iff.mpr hno]
        simp
    | true =>
      have h2 := sync_documents_singleton_update env
        (sync_documents env true db).1 r k detail db.documents
        { document_id := k, name := detail.name.getD "",
          description := detail.description,
          owner_id := detail.owner.bind (fun o => o.id),
          owner_name := detail.owner.bind (fun o => o.name),
          public := detail.public.getD false, created_at := db.clock + 1,
          updated_at := none }
        hfetch hk hdet h1 hfresh rfl
      constructor
      · exact ⟨db.clock + 1,
          some ((sync_documents env true db).1.clock + 1),
          by rw [h2]⟩
      · rw [h2, List.filter_append, List.filter_eq_nil_iff.mpr hno]
        simp

/-- Witness for C2 at a concrete environment, reconciling each entity's
record twice against an empty store. -/
theorem c2_upsert_idempotent_witness :
    ((∃ c t, (sync_document_workspaces envC2w "d1"
        (sync_document_workspaces envC2w "d1" emptyDb).1).1.workspaces =
      emptyDb.workspaces ++
        [{ workspace_id := "w1", document_id := "d1", name := "Main",
           description := none, is_main := true,
           created_at := c, updated_at := t }]) ∧
     ((sync_document_workspaces envC2w "d1"
        (sync_document_workspaces envC2w "d1" emptyDb).1).1.workspaces.filter
       (fun x => x.workspace_id == "w1")).length = 1) ∧
    ((∃ c t, (sync_documents envC2w false
        (sync_documents envC2w false emptyDb).1).1.documents =
      emptyDb.documents ++
        [{ document_id := "d1", name := "Doc", description := some "desc",
           owner_id := some "o1", owner_name := some "Owner",
           public := true, created_at := c, updated_at := t }]) ∧
     ((sync_documents envC2w false
        (sync_documents envC2w false emptyDb).1).1.documents.filter
       (fun x => x.document_id == "d1")).length = 1) ∧
    ((∃ c t, (sync_parts envC2w "d1" "w1" "e1"
        (sync_parts envC2w "d1" "w1" "e1" emptyDb).1).1.parts =
      emptyDb.parts ++
        [{ part_id := "p1", element_id := "e1", name := "Part",
           state := some "IN_PROGRESS", body_type := some "solid",
           material_properties := none,
           mass_properties := massPropsOf envC2w "d1" "w1" "e1" "p1",
           appearance := none, created_at := c, updated_at := t }]) ∧
     ((sync_parts envC2w "d1" "w1" "e1"
        (sync_parts envC2w "d1" "w1" "e1" emptyDb).1).1.parts.filter
       (fun x => x.part_id == "p1")).length = 1) ∧
    ((sync_document_elements envC2w "d1" "w1"
        (sync_document_elements envC2w "d1" "w1" emptyDb).1).1.elements.filter
       (fun x => x.element_id == "e1")).length = 1 ∧
    ((sync_features envC2w "d1" "w1" "e1"
        (sync_features envC2w "d1" "w1" "e1" emptyDb).1).1.features.filter
       (fun x => x.feature_id == "f1")).length = 1 :=
  ⟨⟨by
      have h := c2_upsert_idempotent.1 envC2w "d1" emptyDb
        ⟨some "w1", some "Main", none, some true⟩ "w1" rfl (by decide) rfl
      simpa using h.1,
    by
      have h := c2_upsert_idempotent.1 envC2w "d1" emptyDb
        ⟨some "w1", some "Main", none, some true⟩ "w1" rfl (by decide) rfl
      simpa using h.2⟩,
   ⟨by
      have h := c2_upsert_idempotent.2.2.2.2 envC2w false emptyDb
        ⟨some "d1"⟩ "d1"
        ⟨some "Doc", some "desc", some ⟨some "o1", some "Owner"⟩, some true⟩
        rfl (by decide) rfl rfl
      simpa using h.1,
    by
      have h := c2_upsert_idempotent.2.2.2.2 envC2w false emptyDb
        ⟨some "d1"⟩ "d1"
        ⟨some "Doc", some "desc", some ⟨some "o1", some "Owner"⟩, some true⟩
        rfl (by decide) rfl rfl
      simpa using h.2⟩,
   ⟨by
      have h := c2_upsert_idempotent.2.2.1 envC2w "d1" "w1" "e1" emptyDb
        ⟨some "p1", some "Part", some "IN_PROGRESS", some "solid", none,
         none⟩ "p1" rfl (by decide) rfl
      simpa using h.1,
    by
      have h := c2_upsert_idempotent.2.2.1 envC2w "d1" "w1" "e1" emptyDb
        ⟨some "p1", some "Part", some "IN_PROGRESS", some "solid", none,
         none⟩ "p1" rfl (by decide) rfl
      simpa using h.2⟩,
   by
     have h := c2_upsert_idempotent.2.1 envC2w "d1" "w1" emptyDb
       ⟨some "e1", some "PS", some "PARTSTUDIO", some "dt", none⟩ "e1"
       rfl (by decide) rfl
     simpa using h.2,
   by
     have h := c2_upsert_idempotent.2.2.2.1 envC2w "d1" "w1" "e1" emptyDb
       ⟨some "f1", some "Extrude", some "extrude", some false, none⟩ "f1"
       rfl (by decide) rfl
     simpa using h.2⟩

/-! ## The update branch as an in-place rewrite of the table

When the key is already stored, a singleton batch leaves the table equal to
an `updateFirst` of it — no row is added, removed or moved. -/

theorem sync_ws_update_branch (env : Env) (d : String) (db : Db)
    (w : RemoteWorkspace) (k : String)
    (hfetch : env.get_document_workspaces d = .ok [w])
    (hk : keyOf w.id = some k)
    (hfound : (db.workspaces.find? (fun x => x.workspace_id == k)).isSome =
      true) :
    (sync_document_workspaces env d db).1.workspaces =
      updateFirst (fun x => x.workspace_id == k)
        (fun x => { x with name := w.name.getD "",
                           description := w.description,
                           is_main := w.isMain.getD false,
                           updated_at := some (db.clock + 1) })
        db.workspaces := by
  simp only [sync_document_workspaces, hfetch, create_sync_log,
    update_sync_log, List.foldl_cons, List.foldl_nil]
  simp [wsStep, hk, hfound]

theorem sync_el_update_branch (env : Env) (d w : String) (db : Db)
    (r : RemoteElement) (k : String)
    (hfetch : env.get_document_elements d w = .ok [r])
    (hk : keyOf r.id = some k)
    (hfound : (db.elements.find? (fun x => x.element_id == k)).isSome =
      true) :
    (sync_document_elements env d w db).1.elements =
      updateFirst (fun x => x.element_id == k)
        (fun x => { x with name := r.name.getD "",
                           element_type := r.elementType,
                           data_type := r.dataType,
                           thumbnail_id := r.thumbnailId,
                           updated_at := some (db.clock + 1) })
        db.elements := by
  simp only [sync_document_elements, hfetch, create_sync_log,
    update_sync_log, List.foldl_cons, List.foldl_nil]
  simp [elStep, hk, hfound]

theorem sync_part_update_branch (env : Env) (d w eid : String) (db : Db)
    (r : RemotePart) (k : String)
    (hfetch : env.get_parts d w eid = .ok [r])
    (hk : keyOf r.partId = some k)
    (hfound : (db.parts.find? (fun x => x.part_id == k)).isSome = true) :
    (sync_parts env d w eid db).1.parts =
      updateFirst (fun x => x.part_id == k)
        (fun x => { x with name := r.name.getD "",
                           state := r.state,
                           body_type := r.bodyType,
                           material_properties := r.materialProperties,
                           mass_properties := massPropsOf env d w eid k,
                           appearance := r.appearance,
                           updated_at := some (db.clock + 1) })
        db.parts := by
  simp only [sync_parts, hfetch, create_sync_log, update_sync_log,
    List.foldl_cons, List.foldl_nil]
  cases hm : env.get_part_mass_properties d w eid k <;>
    simp [partStep, hk, hfound, massPropsOf, hm]

theorem sync_feat_update_branch (env : Env) (d w eid : String) (db : Db)
    (r : RemoteFeature) (k : String)
    (hfetch : env.get_features d w eid = .ok ⟨some [r]⟩)
    (hk : keyOf r.featureId = some k)
    (hfound : (db.features.find? (fun x => x.feature_id == k)).isSome =
      true) :
    (sync_features env d w eid db).1.features =
      updateFirst (fun x => x.feature_id == k)
        (fun x => { x with name := r.name.getD "",
                           feature_type := r.featureType,
                           suppressed := r.suppressed.getD false,
                           parameters := r.parameters,
                           updated_at := some (db.clock + 1) })
        db.features := by
  simp only [sync_features, hfetch, create_sync_log, update_sync_log,
    List.foldl_cons, List.foldl_nil]
  simp [featStep, hk, hfound]

theorem sync_documents_update_branch (env : Env) (db : Db) (r : RemoteDoc)
    (k : String) (detail : RemoteDocDetail)
    (hfetch : env.get_documents = .ok ⟨some [r]⟩)
    (hk : keyOf r.id = some k)
    (hdet : env.get_document k = .ok detail)
    (hfound : (db.documents.find? (fun x => x.document_id == k)).isSome =
      true) :
    (sync_documents env true db).1.documents =
      updateFirst (fun x => x.document_id == k)
        (fun x => { x with name := detail.name.getD "",
                           description := detail.description,
                           owner_id := detail.owner.bind (fun o => o.id),
                           owner_name := detail.owner.bind (fun o => o.name),
                           public := detail.public.getD false,
                           updated_at := some (db.clock + 1) })
        db.documents := by
  simp only [sync_documents, hfetch, create_sync_log, update_sync_log,
    List.foldl_cons, List.foldl_nil]
  simp [docStep, hk, hdet, hfound]

/-- C10: when reconciliation finds an existing record by external key, the
update branch leaves every row's external key, parent-key field
(`document_id` for workspaces and elements, `element_id` for parts and
features; for documents the key itself) and `created_at` unchanged — each
row is either untouched or rewritten only in its mutable attribute fields
and `updated_at`. The sync may even be invoked under a different parent
key: the stored parent is never rewritten, so a record whose parent changed
remotely is not re-parented locally. -/
theorem c10_update_frame :
    (∀ env d db w k, env.get_document_workspaces d = .ok [w] →
      keyOf w.id = some k →
      (db.workspaces.find? (fun x => x.workspace_id == k)).isSome = true →
      List.Forall₂ (fun old new : WorkspaceRec =>
        new.workspace_id = old.workspace_id ∧
        new.document_id = old.document_id ∧
        new.created_at = old.created_at ∧
        (new = old ∨ new =
          { old with
              name := w.name.getD ""
              description := w.description
              is_main := w.isMain.getD false
              updated_at := some (db.clock + 1) }))
        db.workspaces
        (sync_document_workspaces env d db).1.workspaces) ∧
    (∀ env d w db r k, env.get_document_elements d w = .ok [r] →
      keyOf r.id = some k →
      (db.elements.find? (fun x => x.element_id == k)).isSome = true →
      List.Forall₂ (fun old new : ElementRec =>
        new.element_id = old.element_id ∧
        new.document_id = old.document_id ∧
        new.created_at = old.created_at ∧
        (new = old ∨ new =
          { old with
              name := r.name.getD ""
              element_type := r.elementType
              data_type := r.dataType
              thumbnail_id := r.thumbnailId
              updated_at := some (db.clock + 1) }))
        db.elements
        (sync_document_elements env d w db).1.elements) ∧
    (∀ env d w eid db r k, env.get_parts d w eid = .ok [r] →
      keyOf r.partId = some k →
      (db.parts.find? (fun x => x.part_id == k)).isSome = true →
      List.Forall₂ (fun old new : PartRec =>
        new.part_id = old.part_id ∧
        new.element_id = old.element_id ∧
        new.created_at = old.created_at ∧
        (new = old ∨ new =
          { old with
              name := r.name.getD ""
              state := r.state
              body_type := r.bodyType
              material_properties := r.materialProperties
              mass_properties := massPropsOf env d w eid k
              appearance := r.appearance
              updated_at := some (db.clock + 1) }))
        db.parts
        (sync_parts env d w eid db).1.parts) ∧
    (∀ env d w eid db r k, env.get_features d w eid = .ok ⟨some [r]⟩ →
      keyOf r.featureId = some k →
      (db.features.find? (fun x => x.feature_id == k)).isSome = true →
      List.Forall₂ (fun old new : FeatureRec =>
        new.feature_id = old.feature_id ∧
        new.element_id = old.element_id ∧
        new.created_at = old.created_at ∧
        (new = old ∨ new =
          { old with
              name := r.name.getD ""
              feature_type := r.featureType
              suppressed := r.suppressed.getD false
              parameters := r.parameters
              updated_at := some (db.clock + 1) }))
        db.features
        (sync_features env d w eid db).1.features) ∧
    (∀ env db r k detail, env.get_documents = .ok ⟨some [r]⟩ →
      keyOf r.id = some k →
      env.get_document k = .ok detail →
      (db.documents.find? (fun x => x.document_id == k)).isSome = true →
      List.Forall₂ (fun old new : DocumentRec =>
        new.document_id = old.document_id ∧
        new.created_at = old.created_at ∧
        (new = old ∨ new =
          { old with
              name := detail.name.getD ""
              description := detail.description
              owner_id := detail.owner.bind (fun o => o.id)
              owner_name := detail.owner.bind (fun o => o.name)
              public := detail.public.getD false
              updated_at := some (db.clock + 1) }))
        db.documents
        (sync_documents env true db).1.documents) := by
  refine ⟨?_, ?_, ?_, ?_, ?_⟩
  · intro env d db w k hfetch hk hfound
    rw [sync_ws_update_branch env d db w k hfetch hk hfound]
    exact updateFirst_forall₂ _ _ _
      (fun x => ⟨rfl, rfl, rfl, Or.inl rfl⟩)
      (fun x => ⟨rfl, rfl, rfl, Or.inr rfl⟩)
  · intro env d w db r k hfetch hk hfound
    rw [sync_el_update_branch env d w db r k hfetch hk hfound]
    exact updateFirst_forall₂ _ _ _
      (fun x => ⟨rfl, rfl, rfl, Or.inl rfl⟩)
      (fun x => ⟨rfl, rfl, rfl, Or.inr rfl⟩)
  · intro env d w eid db r k hfetch hk hfound
    rw [sync_part_update_branch env d w eid db r k hfetch hk hfound]
    exact updateFirst_forall₂ _ _ _
      (fun x => ⟨rfl, rfl, rfl, Or.inl rfl⟩)
      (fun x => ⟨rfl, rfl, rfl, Or.inr rfl⟩)
  · intro env d w eid db r k hfetch hk hfound
    rw [sync_feat_update_branch env d w eid db r k hfetch hk hfound]
    exact updateFirst_forall₂ _ _ _
      (fun x => ⟨rfl, rfl, rfl, Or.inl rfl⟩)
      (fun x => ⟨rfl, rfl, rfl, Or.inr rfl⟩)
  · intro env db r k detail hfetch hk hdet hfound
    rw [sync_documents_update_branch env db r k detail hfetch hk hdet hfound]
    exact updateFirst_forall₂ _ _ _
      (fun x => ⟨rfl, rfl, Or.inl rfl⟩)
      (fun x => ⟨rfl, rfl, Or.inr rfl⟩)

/-- Witness for C10: syncing workspace `w1` under the new parent `dNEW`
updates it in place, keeping `document_id = "dORIG"`. -/
theorem c10_update_frame_witness :
    List.Forall₂ (fun old new : WorkspaceRec =>
      new.workspace_id = old.workspace_id ∧
      new.document_id = old.document_id ∧
      new.created_at = old.created_at ∧
      (new = old ∨ new =
        { old with
            name := "Main"
            description := none
            is_main := true
            updated_at := some (dbC10.clock + 1) }))
      dbC10.workspaces
      (sync_document_workspaces envC2w "dNEW" dbC10).1.workspaces := by
  have h := c10_update_frame.1 envC2w "dNEW" dbC10
    ⟨some "w1", some "Main", none, some true⟩ "w1" rfl (by decide) (by decide)
  simpa using h

/-- C5: in a parts batch, a failing best-effort mass-properties fetch for
one part neither drops that part nor aborts the rest of the batch: both
parts are reconciled (`processed = 2`, `errors = 0`), the affected part is
stored with absent mass properties, and the parts job still closes with
status `success`. -/
theorem c5_mass_props_best_effort (env : Env) (d w eid : String) (db : Db)
    (r1 r2 : RemotePart) (k1 k2 m : String)
    (hfetch : env.get_parts d w eid = .ok [r1, r2])
    (hk1 : keyOf r1.partId = some k1)
    (hk2 : keyOf r2.partId = some k2)
    (hne : (k1 == k2) = false)
    (hmass1 : env.get_part_mass_properties d w eid k1 = .error m)
    (hfresh1 : db.parts.find? (fun x => x.part_id == k1) = none)
    (hfresh2 : db.parts.find? (fun x => x.part_id == k2) = none) :
    (sync_parts env d w eid db).2 =
      .ok 2 0 ("Successfully synced " ++ toString 2 ++ " parts") ∧
    (sync_parts env d w eid db).1.parts =
      db.parts ++
        [{ part_id := k1, element_id := eid, name := r1.name.getD "",
           state := r1.state, body_type := r1.bodyType,
           material_properties := r1.materialProperties,
           mass_properties := none, appearance := r1.appearance,
           created_at := db.clock + 1, updated_at := none },
         { part_id := k2, element_id := eid, name := r2.name.getD "",
           state := r2.state, body_type := r2.bodyType,
           material_properties := r2.materialProperties,
           mass_properties := massPropsOf env d w eid k2,
           appearance := r2.appearance,
           created_at := db.clock + 2, updated_at := none }] ∧
    (∃ log, (sync_parts env d w eid db).1.sync_logs =
        db.sync_logs ++ [log] ∧ log.status = "success") := by
  have hkc : keyedCount (fun r => r.partId) [r1, r2] = 2 := by
    simp [keyedCount, List.filterMap, hk1, hk2]
  refine ⟨?_, ?_, ?_⟩
  · rw [sync_parts_ok_result env d w eid db [r1, r2] hfetch, hkc]
  · have hno1 : ∀ x ∈ db.parts, x.part_id ≠ k1 := fun x hx => by
      simpa using List.find?_eq_none.mp hfresh1 x hx
    have hno2 : ∀ x ∈ db.parts, x.part_id ≠ k2 := fun x hx => by
      simpa using List.find?_eq_none.mp hfresh2 x hx
    have hne' : k1 ≠ k2 := by simpa using hne
    have hnex1 : ¬ ∃ x ∈ db.parts, x.part_id = k1 := by
      rintro ⟨x, hx, hxe⟩
      exact hno1 x hx hxe
    have hnex2 : ¬ ∃ x ∈ db.parts, x.part_id = k2 := by
      rintro ⟨x, hx, hxe⟩
      exact hno2 x hx hxe
    simp only [sync_parts, hfetch, create_sync_log, update_sync_log,
      List.foldl_cons, List.foldl_nil]
    cases hm2 : env.get_part_mass_properties d w eid k2 <;>
      simp [partStep, hk1, hk2, hnex1, hnex2, hne', Ne.symm hne',
        hmass1, massPropsOf, hm2]
  · obtain ⟨log, hl, -, -, -, hs⟩ := sync_parts_closes_log env d w eid db
    exact ⟨log, hl, by rw [hs, hfetch]; rfl⟩

/-- Witness for C5 at a concrete two-part batch. -/
theorem c5_mass_props_best_effort_witness :
    (sync_parts envC5w "d" "w" "e" emptyDb).2 =
      .ok 2 0 ("Successfully synced " ++ toString 2 ++ " parts") ∧
    (sync_parts envC5w "d" "w" "e" emptyDb).1.parts =
      emptyDb.parts ++
        [{ part_id := "p1", element_id := "e", name := "A",
           state := none, body_type := none, material_properties := none,
           mass_properties := none, appearance := none,
           created_at := emptyDb.clock + 1, updated_at := none },
         { part_id := "p2", element_id := "e", name := "B",
           state := none, body_type := none, material_properties := none,
           mass_properties := massPropsOf envC5w "d" "w" "e" "p2",
           appearance := none,
           created_at := emptyDb.clock + 2, updated_at := none }] ∧
    (∃ log, (sync_parts envC5w "d" "w" "e" emptyDb).1.sync_logs =
        emptyDb.sync_logs ++ [log] ∧ log.status = "success") :=
  c5_mass_props_best_effort envC5w "d" "w" "e" emptyDb
    ⟨some "p1", some "A", none, none, none, none⟩
    ⟨some "p2", some "B", none, none, none, none⟩
    "p1" "p2" "mass fetch failed" rfl (by decide) (by decide) (by decide)
    (by decide) rfl rfl

/-- C8 fails as stated: the root job of this full sync closes with
`errors_count = 0`, while the failed workspace phase's own job recorded 1
error — so the root counts do not include failed phases' recorded counts.
The root (head) job shows 0 errors; the nested phases' jobs sum to 1. -/
theorem c8_counterexample :
    (full_sync envC8 (some ["d1"]) emptyDb).1.sync_logs.map logView =
      [("full_sync", "success", 1, 0), ("documents", "success", 1, 0),
       ("workspaces", "error", 0, 1)] ∧
    ((full_sync envC8 (some ["d1"]) emptyDb).1.sync_logs.head?.map
      (fun l => l.errors_count)) = some 0 ∧
    (((full_sync envC8 (some ["d1"]) emptyDb).1.sync_logs.drop 1).map
      (fun l => l.errors_count)).sum = 1 ∧
    (0 : Nat) ≠ 1 := by decide

/-- C8 (amended): the root job of a full sync is closed with
`records_processed` and `errors_count` equal to the sums of the counts
*returned* by each nested phase it ran; a phase that itself failed returns
no counts and therefore contributes 0 to both root totals — the 1 error its
own job records is not added. Shown on a run whose single document's
workspace fetch fails: the root closes `success (1, 0)` (the document
phase's counts plus 0 for the failed workspace phase), while the workspace
job itself records `(0, 1)`. -/
theorem c8_root_counts_amended (env : Env) (r : RemoteDoc) (dk m : String)
    (detail : RemoteDocDetail)
    (hk : keyOf r.id = some dk)
    (hdocs : env.get_documents = .ok ⟨some [r]⟩)
    (hdet : env.get_document dk = .ok detail)
    (hws : env.get_document_workspaces dk = .error m) :
    (full_sync env (some [dk]) emptyDb).1.sync_logs.map logView =
      [("full_sync", "success", 1, 0), ("documents", "success", 1, 0),
       ("workspaces", "error", 0, 1)] ∧
    (full_sync env (some [dk]) emptyDb).2 =
      .ok 1 0 "Full sync completed successfully" := by
  simp [full_sync, fullSyncTargets, fullSyncDocStep, sync_documents,
    sync_document_workspaces, docStep, create_sync_log, update_sync_log,
    modifyAt, logView, hk, hdocs, hdet, hws, List.foldl_cons,
    List.foldl_nil, emptyDb, SyncResult.processedCount,
    SyncResult.errorsCount]

/-- Witness for the amended C8 at the concrete environment. -/
theorem c8_root_counts_witness :
    (full_sync envC8 (some ["d1"]) emptyDb).1.sync_logs.map logView =
      [("full_sync", "success", 1, 0), ("documents", "success", 1, 0),
       ("workspaces", "error", 0, 1)] ∧
    (full_sync envC8 (some ["d1"]) emptyDb).2 =
      .ok 1 0 "Full sync completed successfully" :=
  c8_root_counts_amended envC8 ⟨some "d1"⟩ "d1" "workspace fetch failed"
    ⟨some "Doc", none, none, none⟩ (by decide) rfl rfl rfl

/-- C6: cascade-level failures are isolated to their node's subtree. First
conjunct — a document whose workspace-list fetch fails (with no local
workspaces to fall back on) gets no element sync, while the sibling
document processed after it is fully cascaded and the root job closes
`success`. Second conjunct — an element whose parts fetch fails still gets
its feature sync, and the sibling element's parts and features syncs still
run. Third conjunct — whatever the environment does, the root job always
reaches the terminal state `success` with its completion stamp set. -/
theorem c6_sibling_isolation :
    (∀ env (r1 r2 : RemoteDoc) (d1 d2 m wk : String)
        (det1 det2 : RemoteDocDetail) (w1 : RemoteWorkspace),
      keyOf r2.id = some d2 →
      keyOf r1.id = some d1 →
      d2 ≠ d1 →
      env.get_documents = .ok ⟨some [r2, r1]⟩ →
      env.get_document d2 = .ok det2 →
      env.get_document d1 = .ok det1 →
      env.get_document_workspaces d2 = .error m →
      env.get_document_workspaces d1 = .ok [w1] →
      keyOf w1.id = some wk →
      w1.isMain = some true →
      env.get_document_elements d1 wk = .ok [] →
      (full_sync env (some [d2, d1]) emptyDb).1.sync_logs.map logView =
        [("full_sync", "success", 3, 0), ("documents", "success", 2, 0),
         ("workspaces", "error", 0, 1), ("workspaces", "success", 1, 0),
         ("elements", "success", 0, 0)] ∧
      (full_sync env (some [d2, d1]) emptyDb).2 =
        .ok 3 0 "Full sync completed successfully") ∧
    (∀ env (rd : RemoteDoc) (d1 wk ek1 ek2 pm : String)
        (det : RemoteDocDetail) (w1 : RemoteWorkspace)
        (re1 re2 : RemoteElement),
      keyOf rd.id = some d1 →
      env.get_documents = .ok ⟨some [rd]⟩ →
      env.get_document d1 = .ok det →
      env.get_document_workspaces d1 = .ok [w1] →
      keyOf w1.id = some wk →
      w1.isMain = some true →
      env.get_document_elements d1 wk = .ok [re1, re2] →
      keyOf re1.id = some ek1 →
      keyOf re2.id = some ek2 →
      ek1 ≠ ek2 →
      re1.elementType = some "PARTSTUDIO" →
      re2.elementType = some "PARTSTUDIO" →
      env.get_parts d1 wk ek1 = .error pm →
      env.get_parts d1 wk ek2 = .ok [] →
      env.get_features d1 wk ek1 = .ok ⟨some []⟩ →
      env.get_features d1 wk ek2 = .ok ⟨some []⟩ →
      (full_sync env (some [d1]) emptyDb).1.sync_logs.map logView =
        [("full_sync", "success", 4, 0), ("documents", "success", 1, 0),
         ("workspaces", "success", 1, 0), ("elements", "success", 2, 0),
         ("parts", "error", 0, 1), ("features", "success", 0, 0),
         ("parts", "success", 0, 0), ("features", "success", 0, 0)] ∧
      (full_sync env (some [d1]) emptyDb).2 =
        .ok 4 0 "Full sync completed successfully") ∧
    (∀ env ids db, ∃ log tail,
      (full_sync env ids db).1.sync_logs = db.sync_logs ++ log :: tail ∧
      log.status = "success" ∧ log.completed_at.isSome = true) := by
  refine ⟨?_, ?_, ?_⟩
  · intro env r1 r2 d1 d2 m wk det1 det2 w1 hk2 hk1 hne hdocs hdet2 hdet1
      hws2 hws1 hwk hwmain hels
    simp [full_sync, fullSyncTargets, fullSyncDocStep, sync_documents,
      sync_document_workspaces, sync_document_elements, docStep, wsStep,
      create_sync_log, update_sync_log, modifyAt, logView, hk1, hk2, hne,
      Ne.symm hne, hdocs, hdet1, hdet2, hws1, hws2, hwk, hwmain, hels,
      List.foldl_cons, List.foldl_nil, emptyDb, SyncResult.processedCount,
      SyncResult.errorsCount]
  · intro env rd d1 wk ek1 ek2 pm det w1 re1 re2 hkd hdocs hdet hws hwk
      hwmain hels hek1 hek2 hnee ht1 ht2 hparts1 hparts2 hfeat1 hfeat2
    simp [full_sync, fullSyncTargets, fullSyncDocStep, fullSyncElementStep,
      sync_documents, sync_document_workspaces, sync_document_elements,
      sync_parts, sync_features, docStep, wsStep, elStep, create_sync_log,
      update_sync_log, modifyAt, logView, hkd, hdocs, hdet, hws, hwk,
      hwmain, hels, hek1, hek2, hnee, Ne.symm hnee, ht1, ht2, hparts1,
      hparts2, hfeat1, hfeat2, List.foldl_cons, List.foldl_nil, emptyDb,
      SyncResult.processedCount, SyncResult.errorsCount]
  · intro env ids db
    obtain ⟨log, tail, hl, -, -, hdone, hs⟩ := full_sync_closes_log env ids db
    exact ⟨log, tail, hl, hs, hdone⟩

/-- Witness for C6 at concrete environments exercising both failure
scenarios. -/
theorem c6_sibling_isolation_witness :
    ((full_sync envC6a (some ["d2", "d1"]) emptyDb).1.sync_logs.map logView =
      [("full_sync", "success", 3, 0), ("documents", "success", 2, 0),
       ("workspaces", "error", 0, 1), ("workspaces", "success", 1, 0),
       ("elements", "success", 0, 0)] ∧
     (full_sync envC6a (some ["d2", "d1"]) emptyDb).2 =
      .ok 3 0 "Full sync completed successfully") ∧
    ((full_sync envC6b (some ["d1"]) emptyDb).1.sync_logs.map logView =
      [("full_sync", "success", 4, 0), ("documents", "success", 1, 0),
       ("workspaces", "success", 1, 0), ("elements", "success", 2, 0),
       ("parts", "error", 0, 1), ("features", "success", 0, 0),
       ("parts", "success", 0, 0), ("features", "success", 0, 0)] ∧
     (full_sync envC6b (some ["d1"]) emptyDb).2 =
      .ok 4 0 "Full sync completed successfully") :=
  ⟨c6_sibling_isolation.1 envC6a ⟨some "d1"⟩ ⟨some "d2"⟩ "d1" "d2"
     "workspace fetch failed" "w1" ⟨some "Doc", none, none, none⟩
     ⟨some "Doc", none, none, none⟩ ⟨some "w1", some "Main", none, some true⟩
     (by decide) (by decide) (by decide) rfl rfl rfl (by decide) (by decide)
     (by decide) rfl (by decide),
   c6_sibling_isolation.2.1 envC6b ⟨some "d1"⟩ "d1" "w1" "e1" "e2"
     "parts fetch failed" ⟨some "Doc", none, none, none⟩
     ⟨some "w1", some "Main", none, some true⟩
     ⟨some "e1", some "S1", some "PARTSTUDIO", none, none⟩
     ⟨some "e2", some "S2", some "PARTSTUDIO", none, none⟩
     (by decide) rfl rfl rfl (by decide) rfl rfl (by decide) (by decide)
     (by decide) rfl rfl (by decide) (by decide) rfl rfl⟩

/-- C7 fails as stated for the no-main-workspace case: the descent is
short-circuited *silently* — the run leaves no job record with zero
progress (every recorded count is nonzero) and no element-sync record, so
no "recorded zero-progress note" exists. -/
theorem c7_counterexample :
    (full_sync envC7 (some ["d1"]) emptyDb).1.sync_logs.map logView =
      [("full_sync", "success", 2, 0), ("documents", "success", 1, 0),
       ("workspaces", "success", 1, 0)] ∧
    (∀ l ∈ (full_sync envC7 (some ["d1"]) emptyDb).1.sync_logs,
      l.records_processed ≠ 0) ∧
    (∀ l ∈ (full_sync envC7 (some ["d1"]) emptyDb).1.sync_logs,
      l.sync_type ≠ "elements") := by decide

/-- C7 (amended): a document with zero workspaces short-circuits its
descent without an exception, and its workspace-phase job records zero
progress (the only zero-progress note the code leaves); a document whose
workspaces lack a main flag short-circuits its descent *silently*, with no
record of why. First conjunct — the D1/D2 scenario: D1 (two workspaces,
one flagged main, one PARTSTUDIO element) is fully cascaded, D2 (no
workspaces) gets a zero-progress workspace job and no element sync, and
the root job ends `success` with D1's nonzero counts. Second conjunct —
the no-main case: descent stops after the workspace phase with no
zero-progress record, root still `success`. -/
theorem c7_no_main_short_circuit_amended :
    (∀ env (rd1 rd2 : RemoteDoc) (dk1 dk2 wk1 wk2 ek : String)
        (det1 det2 : RemoteDocDetail) (w1 w2 : RemoteWorkspace)
        (re : RemoteElement),
      keyOf rd1.id = some dk1 →
      keyOf rd2.id = some dk2 →
      dk1 ≠ dk2 →
      env.get_documents = .ok ⟨some [rd1, rd2]⟩ →
      env.get_document dk1 = .ok det1 →
      env.get_document dk2 = .ok det2 →
      env.get_document_workspaces dk1 = .ok [w1, w2] →
      env.get_document_workspaces dk2 = .ok [] →
      keyOf w1.id = some wk1 →
      keyOf w2.id = some wk2 →
      wk1 ≠ wk2 →
      w1.isMain = some true →
      w2.isMain = some false →
      env.get_document_elements dk1 wk1 = .ok [re] →
      keyOf re.id = some ek →
      re.elementType = some "PARTSTUDIO" →
      env.get_parts dk1 wk1 ek = .ok [] →
      env.get_features dk1 wk1 ek = .ok ⟨some []⟩ →
      (full_sync env (some [dk1, dk2]) emptyDb).1.sync_logs.map logView =
        [("full_sync", "success", 5, 0), ("documents", "success", 2, 0),
         ("workspaces", "success", 2, 0), ("elements", "success", 1, 0),
         ("parts", "success", 0, 0), ("features", "success", 0, 0),
         ("workspaces", "success", 0, 0)] ∧
      (full_sync env (some [dk1, dk2]) emptyDb).2 =
        .ok 5 0 "Full sync completed successfully") ∧
    (∀ env (rd : RemoteDoc) (dk : String) (det : RemoteDocDetail)
        (w1 : RemoteWorkspace) (wk : String),
      keyOf rd.id = some dk →
      env.get_documents = .ok ⟨some [rd]⟩ →
      env.get_document dk = .ok det →
      env.get_document_workspaces dk = .ok [w1] →
      keyOf w1.id = some wk →
      w1.isMain = some false →
      (full_sync env (some [dk]) emptyDb).1.sync_logs.map logView =
        [("full_sync", "success", 2, 0), ("documents", "success", 1, 0),
         ("workspaces", "success", 1, 0)] ∧
      (full_sync env (some [dk]) emptyDb).2 =
        .ok 2 0 "Full sync completed successfully") := by
  constructor
  · intro env rd1 rd2 dk1 dk2 wk1 wk2 ek det1 det2 w1 w2 re hkd1 hkd2 hned
      hdocs hdet1 hdet2 hws1 hws2 hwk1 hwk2 hnew hw1main hw2main hels hek
      ht hparts hfeats
    simp [full_sync, fullSyncTargets, fullSyncDocStep, fullSyncElementStep,
      sync_documents, sync_document_workspaces, sync_document_elements,
      sync_parts, sync_features, docStep, wsStep, elStep, create_sync_log,
      update_sync_log, modifyAt, logView, hkd1, hkd2, hned, Ne.symm hned,
      hdocs, hdet1, hdet2, hws1, hws2, hwk1, hwk2, hnew, Ne.symm hnew,
      hw1main, hw2main, hels, hek, ht, hparts, hfeats, List.foldl_cons,
      List.foldl_nil, emptyDb, SyncResult.processedCount,
      SyncResult.errorsCount]
  · intro env rd dk det w1 wk hkd hdocs hdet hws hwk hwmain
    simp [full_sync, fullSyncTargets, fullSyncDocStep, sync_documents,
      sync_document_workspaces, docStep, wsStep, create_sync_log,
      update_sync_log, modifyAt, logView, hkd, hdocs, hdet, hws, hwk,
      hwmain, List.foldl_cons, List.foldl_nil, emptyDb,
      SyncResult.processedCount, SyncResult.errorsCount]

/-- Witness for the amended C7 at the concrete D1/D2 environment and at
the concrete no-main environment. -/
theorem c7_no_main_short_circuit_witness :
    ((full_sync envC7w (some ["D1", "D2"]) emptyDb).1.sync_logs.map logView =
      [("full_sync", "success", 5, 0), ("documents", "success", 2, 0),
       ("workspaces", "success", 2, 0), ("elements", "success", 1, 0),
       ("parts", "success", 0, 0), ("features", "success", 0, 0),
       ("workspaces", "success", 0, 0)] ∧
     (full_sync envC7w (some ["D1", "D2"]) emptyDb).2 =
      .ok 5 0 "Full sync completed successfully") ∧
    ((full_sync envC7 (some ["d1"]) emptyDb).1.sync_logs.map logView =
      [("full_sync", "success", 2, 0), ("documents", "success", 1, 0),
       ("workspaces", "success", 1, 0)] ∧
     (full_sync envC7 (some ["d1"]) emptyDb).2 =
      .ok 2 0 "Full sync completed successfully") :=
  ⟨c7_no_main_short_circuit_amended.1 envC7w ⟨some "D1"⟩ ⟨some "D2"⟩
     "D1" "D2" "w1" "w2" "e1" ⟨some "Doc", none, none, none⟩
     ⟨some "Doc", none, none, none⟩
     ⟨some "w1", some "Main", none, some true⟩
     ⟨some "w2", some "Dev", none, some false⟩
     ⟨some "e1", some "Studio", some "PARTSTUDIO", none, none⟩
     (by decide) (by decide) (by decide) rfl rfl rfl (by decide) (by decide)
     (by decide) (by decide) (by decide) rfl rfl rfl (by decide) rfl rfl
     rfl,
   c7_no_main_short_circuit_amended.2 envC7 ⟨some "d1"⟩ "d1"
     ⟨some "Doc", none, none, none⟩
     ⟨some "w1", some "Dev", none, some false⟩ "w1"
     (by decide) rfl rfl rfl (by decide) rfl⟩

end OnshapeToDb
